import Mathlib

/-!
BME280 driver: a verification development.

A shallow embedding of `src/source/bme280.cpp` and `src/include/bme280.h`.

* Machine integers are `Int`/`Nat` with explicit reduction: `toInt32`, `toInt64`,
  `toInt16`, `toInt8` reinterpret a value in two's complement, `toUInt32`,
  `toUInt16`, `toUInt8` reduce modulo the width.  Signed overflow, which C++
  leaves undefined, is modelled by wrap-around; right shifts of signed values
  are arithmetic (floor), right shifts of unsigned values are logical.
* The operating system and the I2C bus are an environment `Env` whose answers
  may depend on the whole history of calls (`World.trace`, newest event first).
* A member function is a function from the object (`Session`) and the world to
  an `Outcome` together with the new object and world; a thrown exception is
  `Outcome.thrown`, reaching undefined behaviour is `Outcome.undefined`.
-/

namespace BME280

/-! ## Fixed-width integers -/

/-- Value of a 32-bit two's complement pattern (conversion to `int32_t`). -/
def toInt32 (z : Int) : Int := (z + 2147483648) % 4294967296 - 2147483648

/-- Value of a 64-bit two's complement pattern (conversion to `int64_t`). -/
def toInt64 (z : Int) : Int :=
  (z + 9223372036854775808) % 18446744073709551616 - 9223372036854775808

/-- Value of a 16-bit two's complement pattern (conversion to `int16_t`). -/
def toInt16 (z : Int) : Int := (z + 32768) % 65536 - 32768

/-- Value of an 8-bit two's complement pattern (conversion to `int8_t`). -/
def toInt8 (z : Int) : Int := (z + 128) % 256 - 128

/-- Conversion to `uint32_t`. -/
def toUInt32 (z : Int) : Int := z % 4294967296

/-- Conversion to `uint16_t`. -/
def toUInt16 (n : Nat) : Nat := n % 65536

/-- Conversion to `uint8_t`. -/
def toUInt8 (n : Nat) : Nat := n % 256

/-- The int32_t addition. -/
def add32 (a b : Int) : Int := toInt32 (a + b)
/-- The int32_t subtraction. -/
def sub32 (a b : Int) : Int := toInt32 (a - b)
/-- The int32_t multiplication. -/
def mul32 (a b : Int) : Int := toInt32 (a * b)
/-- The int32_t left shift. -/
def shl32 (a : Int) (k : Nat) : Int := toInt32 (a * 2 ^ k)
/-- The int32_t right shift (arithmetic). -/
def shr32 (a : Int) (k : Nat) : Int := a >>> k

/-- The uint32_t addition. -/
def uadd32 (a b : Int) : Int := toUInt32 (a + b)
/-- The uint32_t subtraction. -/
def usub32 (a b : Int) : Int := toUInt32 (a - b)
/-- The uint32_t multiplication. -/
def umul32 (a b : Int) : Int := toUInt32 (a * b)
/-- The uint32_t left shift. -/
def ushl32 (a : Int) (k : Nat) : Int := toUInt32 (a * 2 ^ k)
/-- The uint32_t right shift (logical); the operand is first brought into `[0, 2^32)`. -/
def ushr32 (a : Int) (k : Nat) : Int := toUInt32 a / 2 ^ k

/-- The int64_t addition. -/
def add64 (a b : Int) : Int := toInt64 (a + b)
/-- The int64_t subtraction. -/
def sub64 (a b : Int) : Int := toInt64 (a - b)
/-- The int64_t multiplication. -/
def mul64 (a b : Int) : Int := toInt64 (a * b)
/-- The int64_t left shift. -/
def shl64 (a : Int) (k : Nat) : Int := toInt64 (a * 2 ^ k)
/-- The int64_t right shift (arithmetic). -/
def shr64 (a : Int) (k : Nat) : Int := a >>> k
/-- The int64_t division by a non-zero divisor: truncation towards zero. -/
def div64 (a b : Int) : Int := toInt64 (Int.tdiv a b)

/-! ## Data model (`bme280.h`) -/

/-- The enumeration `Mode`. -/
inductive Mode where
  | SLEEP | FORCED | NORMAL
  deriving DecidableEq

/-- Underlying `uint8_t` of a `Mode`. -/
def Mode.val : Mode → Nat
  | .SLEEP => 0
  | .FORCED => 1
  | .NORMAL => 3

/-- The enumeration `Filter`. -/
inductive Filter where
  | OFF | _2 | _4 | _8 | _16
  deriving DecidableEq

/-- Underlying `uint8_t` of a `Filter`. -/
def Filter.val : Filter → Nat
  | .OFF => 0
  | ._2 => 1
  | ._4 => 2
  | ._8 => 3
  | ._16 => 4

/-- The enumeration `Oversampling`. -/
inductive Oversampling where
  | SKIPPED | ULTRA_LOW_POWER | LOW_POWER | STANDARD | HIGH_RES | ULTRA_HIGH_RES
  deriving DecidableEq

/-- Underlying `uint8_t` of an `Oversampling`. -/
def Oversampling.val : Oversampling → Nat
  | .SKIPPED => 0
  | .ULTRA_LOW_POWER => 1
  | .LOW_POWER => 2
  | .STANDARD => 3
  | .HIGH_RES => 4
  | .ULTRA_HIGH_RES => 5

/-- The enumeration `StandbyTime`. -/
inductive StandbyTime where
  | _05ms | _62ms | _125ms | _250ms | _500ms | _1000ms | _2000ms | _4000ms
  deriving DecidableEq

/-- Underlying `uint8_t` of a `StandbyTime`. -/
def StandbyTime.val : StandbyTime → Nat
  | ._05ms => 0
  | ._62ms => 1
  | ._125ms => 2
  | ._250ms => 3
  | ._500ms => 4
  | ._1000ms => 5
  | ._2000ms => 6
  | ._4000ms => 7

/-- The structure `Config`. -/
structure Config where
  mode : Mode
  filter : Filter
  oversamplingPressure : Oversampling
  oversamplingTemperature : Oversampling
  oversamplingHumidity : Oversampling
  standby : StandbyTime
  deriving DecidableEq

/-- The constant `DEFAULT_CONFIGURATION`. -/
def DEFAULT_CONFIGURATION : Config :=
  { mode := .NORMAL, filter := .OFF, oversamplingPressure := .STANDARD,
    oversamplingTemperature := .STANDARD, oversamplingHumidity := .STANDARD,
    standby := ._500ms }

/-- The structure `Calibration`; every field is initialised to zero by the header. -/
structure Calibration where
  T1 : Int := 0
  T2 : Int := 0
  T3 : Int := 0
  P1 : Int := 0
  P2 : Int := 0
  P3 : Int := 0
  P4 : Int := 0
  P5 : Int := 0
  P6 : Int := 0
  P7 : Int := 0
  P8 : Int := 0
  P9 : Int := 0
  H1 : Int := 0
  H2 : Int := 0
  H3 : Int := 0
  H4 : Int := 0
  H5 : Int := 0
  H6 : Int := 0
  updateTime : Int := 0

/-- The field types of `struct Calibration`: `uint16_t` for `T1`, `P1`, `uint8_t` for
`H1`, `H3`, `int8_t` for `H6`, `int16_t` for the other coefficients. -/
def Calibration.InRange (c : Calibration) : Prop :=
  (0 ≤ c.T1 ∧ c.T1 ≤ 65535) ∧ (-32768 ≤ c.T2 ∧ c.T2 ≤ 32767) ∧
  (-32768 ≤ c.T3 ∧ c.T3 ≤ 32767) ∧
  (0 ≤ c.P1 ∧ c.P1 ≤ 65535) ∧ (-32768 ≤ c.P2 ∧ c.P2 ≤ 32767) ∧
  (-32768 ≤ c.P3 ∧ c.P3 ≤ 32767) ∧ (-32768 ≤ c.P4 ∧ c.P4 ≤ 32767) ∧
  (-32768 ≤ c.P5 ∧ c.P5 ≤ 32767) ∧ (-32768 ≤ c.P6 ∧ c.P6 ≤ 32767) ∧
  (-32768 ≤ c.P7 ∧ c.P7 ≤ 32767) ∧ (-32768 ≤ c.P8 ∧ c.P8 ≤ 32767) ∧
  (-32768 ≤ c.P9 ∧ c.P9 ≤ 32767) ∧
  (0 ≤ c.H1 ∧ c.H1 ≤ 255) ∧ (-32768 ≤ c.H2 ∧ c.H2 ≤ 32767) ∧
  (0 ≤ c.H3 ∧ c.H3 ≤ 255) ∧ (-32768 ≤ c.H4 ∧ c.H4 ≤ 32767) ∧
  (-32768 ≤ c.H5 ∧ c.H5 ≤ 32767) ∧ (-128 ≤ c.H6 ∧ c.H6 ≤ 127)

/-- Register addresses of the enumeration `Registers`. -/
def TEMP_PRESS_CALIB_DATA_ADDR : Nat := 0x88
def CHIP_ID_REG : Nat := 0xD0
def HUM_LSB : Nat := 0xFE
def HUM_MSB : Nat := 0xFD
def TEMP_XLSB : Nat := 0xFC
def TEMP_LSB : Nat := 0xFB
def TEMP_MSB : Nat := 0xFA
def PRESS_XLSB : Nat := 0xF9
def PRESS_LSB : Nat := 0xF8
def PRESS_MSB : Nat := 0xF7
def CONFIG : Nat := 0xF5
def CTRL : Nat := 0xF4
def STATUS : Nat := 0xF3
def CTRL_HUM : Nat := 0xF2
def HUM_CALIB_H1 : Nat := 0xA1
def HUM_CALIB_H2_LSB : Nat := 0xE1
def HUM_CALIB_H2_MSB : Nat := 0xE2
def HUM_CALIB_H3 : Nat := 0xE3
def HUM_CALIB_H4_MSB : Nat := 0xE5
def HUM_CALIB_H4_LSB : Nat := 0xE4
def HUM_CALIB_H5_MSB : Nat := 0xE6
def HUM_CALIB_H5_LSB : Nat := 0xE5
def HUM_CALIB_H6 : Nat := 0xE7
def SOFT_RESET_REG : Nat := 0xE0

/-- The constant `TIMEOUT_FOR_SOFT_RESET`, in milliseconds. -/
def TIMEOUT_FOR_SOFT_RESET : Nat := 1000
def TEMP_PRESS_CALIB_DATA_LEN : Nat := 24
def CLOSE : Int := -1
def CHIP_ID : Nat := 0x60
def SOFT_RESET_COMMAND : Nat := 0xB6
def STATUS_OK : Nat := 0

/-- The object `BME280`: its data members.  `_address` and `_config` are not
initialised by the constructor; `none` is an indeterminate value. -/
structure Session where
  device : String
  address : Option Nat
  i2c : Int
  config : Option Config
  calibration : Calibration

/-! ## Outcomes, the environment and the world -/

/-- The exceptions the driver throws, one per `throw` site. -/
inductive Error where
  /-- From `close`: "can't close bmp280 device". -/
  | cantClose
  /-- From `open`: "can't open bmp280 sensor". -/
  | cantOpen
  /-- From `open`: "tried to set bmp280 sensor address". -/
  | setAddress
  /-- From `check`: "failed to connect bmp280 sensor". -/
  | connectFailed
  /-- From `softReset`: "failed to soft reset bmp280 sensor". -/
  | softResetFailed
  /-- From `getRawTemperature`: "failed to read temperature from bmp280 sensor". -/
  | readTemperature
  /-- From `readRawHumidity`: "failed to read humidity from bmp280 sensor". -/
  | readHumidity
  /-- From `getRawPressure`: "failed to read pressure from bmp280 sensor". -/
  | readPressure
  /-- From `access`: "tried to set device address" (the SMBus ioctl failed). -/
  | smbusAccess
  /-- From `readBlockData`: the `std::range_error` "data is out of range". -/
  | outOfRange
  deriving DecidableEq

/-- Result of running a piece of the driver. -/
inductive Outcome (α : Type) where
  /-- Normal return. -/
  | ok (a : α)
  /-- An exception left the function. -/
  | thrown (e : Error)
  /-- The execution reached undefined behaviour (integer division by zero, use of
  an indeterminate value, dereference of a null pointer). -/
  | undefined
  /-- An exception left a destructor: `std::terminate`. -/
  | terminated
  deriving DecidableEq

/-- Calls made to the operating system, in the order the driver makes them. -/
inductive Event where
  | osOpen (path : String)
  | osClose (fd : Int)
  | ioctlSlave (fd : Int) (address : Nat)
  | smbusReadByte (fd : Int) (reg : Nat)
  | smbusWriteByte (fd : Int) (reg : Nat) (value : Nat)
  | smbusReadBlock (fd : Int) (reg : Nat) (length : Nat)
  | sleepMs (ms : Nat)
  | time
  deriving DecidableEq

/-- Answers of the operating system and of the device behind it.  Every answer may
depend on the history of earlier calls (newest first). -/
structure Env where
  /-- Return value of `::open`. -/
  osOpen : List Event → String → Int
  /-- Return value of `::close`. -/
  osClose : List Event → Int → Int
  /-- Return value of `::ioctl(fd, I2C_SLAVE, address)`. -/
  ioctlSlave : List Event → Int → Nat → Int
  /-- SMBus byte read: `none` when the ioctl returns a negative value, otherwise the
  content of `data.byte`. -/
  readByte : List Event → Int → Nat → Option Nat
  /-- SMBus byte write: `false` when the ioctl returns a negative value. -/
  writeByte : List Event → Int → Nat → Nat → Bool
  /-- SMBus block read: `none` when the ioctl returns a negative value, otherwise
  `data.block[0]` and the bytes `data.block[1 + i]`. -/
  readBlock : List Event → Int → Nat → Nat → Option (Nat × (Nat → Nat))
  /-- Return value of `std::time(nullptr)`. -/
  time : List Event → Int

/-- What the driver has done to the outside so far: the calls, newest first. -/
structure World where
  trace : List Event
  deriving DecidableEq

/-- Append an event to the history. -/
def World.log (w : World) (e : Event) : World := { trace := e :: w.trace }

/-- A computation over a state `σ` that may throw. -/
def Prog (σ α : Type) : Type := σ → Outcome α × σ

/-- Sequencing: the second computation runs only after a normal return. -/
def Prog.bind {σ α β : Type} (p : Prog σ α) (f : α → Prog σ β) : Prog σ β :=
  fun s =>
    match p s with
    | (.ok a, s1) => f a s1
    | (.thrown e, s1) => (.thrown e, s1)
    | (.undefined, s1) => (.undefined, s1)
    | (.terminated, s1) => (.terminated, s1)

instance {σ : Type} : Monad (Prog σ) where
  pure a := fun s => (.ok a, s)
  bind := Prog.bind

/-- The statement `throw`. -/
def raise {σ α : Type} (e : Error) : Prog σ α := fun s => (.thrown e, s)

/-- A `const` member function run inside a non-`const` one. -/
def Prog.onWorld {α : Type} (p : Session → Prog World α) : Prog (Session × World) α :=
  fun sw =>
    match p sw.1 sw.2 with
    | (r, w1) => (r, (sw.1, w1))

/-- Update of the data members. -/
def modifySession (f : Session → Session) : Prog (Session × World) Unit :=
  fun sw => (.ok (), (f sw.1, sw.2))

/-- The call `std::this_thread::sleep_for(std::chrono::milliseconds(ms))`. -/
def sleepFor (ms : Nat) : Prog World Unit := fun w => (.ok (), w.log (.sleepMs ms))

/-! ## Transport (`access`, `readByteData`, `writedByteData`, `readBlockData`) -/

/-- The function `writedByteData`: one SMBus byte write through `access`. -/
def writedByteData (env : Env) (s : Session) (registers value : Nat) : Prog World Unit :=
  fun w =>
    if env.writeByte w.trace s.i2c registers value then
      (.ok (), w.log (.smbusWriteByte s.i2c registers value))
    else
      (.thrown .smbusAccess, w.log (.smbusWriteByte s.i2c registers value))

/-- The function `readByteData`: one SMBus byte read through `access`; the result is
`data.byte`, a `uint8_t`. -/
def readByteData (env : Env) (s : Session) (registers : Nat) : Prog World Nat :=
  fun w =>
    match env.readByte w.trace s.i2c registers with
    | some v => (.ok (toUInt8 v), w.log (.smbusReadByte s.i2c registers))
    | none => (.thrown .smbusAccess, w.log (.smbusReadByte s.i2c registers))

/-- The function `readBlockData`: `data.block[0]` is set to `length`, the block read
is issued, the reported count is checked against `length`, and that many bytes are
copied over the front of `values`.  Returns the count and the new buffer. -/
def readBlockData (env : Env) (s : Session) (registers : Nat) (values : List Nat)
    (length : Nat) : Prog World (Nat × List Nat) :=
  fun w =>
    match env.readBlock w.trace s.i2c registers (toUInt8 length) with
    | none => (.thrown .smbusAccess, w.log (.smbusReadBlock s.i2c registers (toUInt8 length)))
    | some (block0, block) =>
      if length < toUInt8 block0 then
        (.thrown .outOfRange, w.log (.smbusReadBlock s.i2c registers (toUInt8 length)))
      else
        (.ok (toUInt8 block0,
              (List.range (toUInt8 block0)).map (fun i => toUInt8 (block i))
                ++ values.drop (toUInt8 block0)),
         w.log (.smbusReadBlock s.i2c registers (toUInt8 length)))

/-! ## Session operations -/

/-- The function `opened`. -/
def opened (s : Session) : Bool := decide (s.i2c > CLOSE)

/-- The function `wasCalibration`. -/
def wasCalibration (s : Session) : Bool := decide (s.calibration.updateTime ≠ 0)

/-- The function `getTimeLastCalibration`. -/
def getTimeLastCalibration (s : Session) : Int := s.calibration.updateTime

/-- The constructor `BME280(device)`: `_i2c` is `CLOSE`, the calibration is the
default one, `_address` and `_config` are left indeterminate. -/
def Session.new (device : String) : Session :=
  { device := device, address := none, i2c := CLOSE, config := none, calibration := {} }

/-- The function `open`. -/
def Session.open (env : Env) : Prog (Session × World) Unit :=
  fun sw =>
    let fd := env.osOpen sw.2.trace sw.1.device
    let s1 : Session := { sw.1 with i2c := fd }
    let w1 := sw.2.log (.osOpen sw.1.device)
    if fd < 0 then (.thrown .cantOpen, (s1, w1))
    else
      match s1.address with
      | none => (.undefined, (s1, w1))
      | some a =>
        if env.ioctlSlave w1.trace fd a < 0 then
          (.thrown .setAddress, (s1, w1.log (.ioctlSlave fd a)))
        else (.ok (), (s1, w1.log (.ioctlSlave fd a)))

/-- The function `check`. -/
def check (env : Env) (s : Session) : Prog World Unit := do
  let id ← readByteData env s CHIP_ID_REG
  if id ≠ CHIP_ID then raise .connectFailed else pure ()

/-- The function `close`. -/
def close (env : Env) : Prog (Session × World) Unit :=
  fun sw =>
    if opened sw.1 then
      if env.osClose sw.2.trace sw.1.i2c < 0 then
        (.thrown .cantClose, (sw.1, sw.2.log (.osClose sw.1.i2c)))
      else
        (.ok (), ({ sw.1 with i2c := CLOSE }, sw.2.log (.osClose sw.1.i2c)))
    else (.ok (), sw)

/-- The function `setConfig`. -/
def setConfig (env : Env) (config : Config) : Prog (Session × World) Unit := do
  modifySession (fun s => { s with config := some config })
  Prog.onWorld (fun s => writedByteData env s CONFIG
    (toUInt8 ((config.standby.val <<< 5) ||| (config.filter.val <<< 2))))
  Prog.onWorld (fun s => writedByteData env s CTRL_HUM config.oversamplingHumidity.val)
  Prog.onWorld (fun s => writedByteData env s CTRL
    (toUInt8 ((config.oversamplingTemperature.val <<< 5)
      ||| (config.oversamplingPressure.val <<< 2) ||| config.mode.val)))
  Prog.onWorld (fun _ => sleepFor 250)

/-- The `while` loop of `softReset`.  The argument is the value that `--timeout`
gives the `uint16_t` counter at its next execution (the counter minus one, modulo
`2^16`): when that value is `0` the loop throws, otherwise the loop goes round with
it as the counter. -/
def softResetLoop (env : Env) (s : Session) : Nat → World → Outcome Unit × World
  | n, w =>
    match readByteData env s STATUS w with
    | (.ok v, w1) =>
      if v ≠ STATUS_OK then
        match sleepFor 1 w1 with
        | (_, w2) =>
          match n with
          | 0 => (.thrown .softResetFailed, w2)
          | m + 1 => softResetLoop env s m w2
      else (.ok (), w1)
    | (.thrown e, w1) => (.thrown e, w1)
    | (.undefined, w1) => (.undefined, w1)
    | (.terminated, w1) => (.terminated, w1)

/-- The function `softReset`: the counter starts at `TIMEOUT_FOR_SOFT_RESET`. -/
def softReset (env : Env) (s : Session) : Prog World Unit := do
  writedByteData env s SOFT_RESET_REG SOFT_RESET_COMMAND
  softResetLoop env s (toUInt16 (TIMEOUT_FOR_SOFT_RESET + 65535))

/-! ## Calibration -/

/-- The expression `(hi << 8) | lo` on two bytes. -/
def word16 (hi lo : Nat) : Nat := (hi <<< 8) ||| lo

/-- The local `h4` of `calibration` from the bytes read at `HUM_CALIB_H4_MSB` (0xE5)
and `HUM_CALIB_H4_LSB` (0xE4), and the value then stored in `_calibration.H4`. -/
def decodeH4 (e5 e4 : Nat) : Int :=
  let h4 := toUInt16 (word16 e5 e4)
  toInt16 ((((h4 &&& 0x00FF) <<< 4) ||| ((h4 &&& 0x0F00) >>> 8) : Nat) : Int)

/-- The local `h5` of `calibration` from the bytes read at `HUM_CALIB_H5_MSB` (0xE6)
and `HUM_CALIB_H5_LSB` (0xE5), and the value then stored in `_calibration.H5`. -/
def decodeH5 (e6 e5 : Nat) : Int :=
  let h5 := toUInt16 (word16 e6 e5)
  toInt16 ((h5 >>> 4 : Nat) : Int)

/-- The twelve assignments of `calibration` that decode the 24-byte block. -/
def decodeBlock (d : List Nat) (c : Calibration) : Calibration :=
  { c with
    T1 := (toUInt16 (word16 (d.getD 1 0) (d.getD 0 0)) : Nat)
    T2 := toInt16 (word16 (d.getD 3 0) (d.getD 2 0) : Nat)
    T3 := toInt16 (word16 (d.getD 5 0) (d.getD 4 0) : Nat)
    P1 := (toUInt16 (word16 (d.getD 7 0) (d.getD 6 0)) : Nat)
    P2 := toInt16 (word16 (d.getD 9 0) (d.getD 8 0) : Nat)
    P3 := toInt16 (word16 (d.getD 11 0) (d.getD 10 0) : Nat)
    P4 := toInt16 (word16 (d.getD 13 0) (d.getD 12 0) : Nat)
    P5 := toInt16 (word16 (d.getD 15 0) (d.getD 14 0) : Nat)
    P6 := toInt16 (word16 (d.getD 17 0) (d.getD 16 0) : Nat)
    P7 := toInt16 (word16 (d.getD 19 0) (d.getD 18 0) : Nat)
    P8 := toInt16 (word16 (d.getD 21 0) (d.getD 20 0) : Nat)
    P9 := toInt16 (word16 (d.getD 23 0) (d.getD 22 0) : Nat) }

/-- Update of `_calibration`. -/
def modifyCalibration (f : Calibration → Calibration) : Prog (Session × World) Unit :=
  modifySession (fun s => { s with calibration := f s.calibration })

/-- The function `calibration`.  The buffer `calibrationData` is the zero-filled list
passed to `readBlockData`; the operands of `|` are evaluated left to right. -/
def calibration (env : Env) : Prog (Session × World) Unit := do
  Prog.onWorld (fun s => softReset env s)
  let r ← Prog.onWorld (fun s =>
    readBlockData env s TEMP_PRESS_CALIB_DATA_ADDR
      (List.replicate TEMP_PRESS_CALIB_DATA_LEN 0) TEMP_PRESS_CALIB_DATA_LEN)
  modifyCalibration (decodeBlock r.2)
  let h1 ← Prog.onWorld (fun s => readByteData env s HUM_CALIB_H1)
  modifyCalibration (fun c => { c with H1 := (h1 : Nat) })
  let h2msb ← Prog.onWorld (fun s => readByteData env s HUM_CALIB_H2_MSB)
  let h2lsb ← Prog.onWorld (fun s => readByteData env s HUM_CALIB_H2_LSB)
  modifyCalibration (fun c => { c with H2 := toInt16 (word16 h2msb h2lsb : Nat) })
  let h3 ← Prog.onWorld (fun s => readByteData env s HUM_CALIB_H3)
  modifyCalibration (fun c => { c with H3 := (h3 : Nat) })
  let h4msb ← Prog.onWorld (fun s => readByteData env s HUM_CALIB_H4_MSB)
  let h4lsb ← Prog.onWorld (fun s => readByteData env s HUM_CALIB_H4_LSB)
  let h5msb ← Prog.onWorld (fun s => readByteData env s HUM_CALIB_H5_MSB)
  let h5lsb ← Prog.onWorld (fun s => readByteData env s HUM_CALIB_H5_LSB)
  modifyCalibration (fun c => { c with H4 := decodeH4 h4msb h4lsb })
  modifyCalibration (fun c => { c with H5 := decodeH5 h5msb h5lsb })
  let h6 ← Prog.onWorld (fun s => readByteData env s HUM_CALIB_H6)
  modifyCalibration (fun c => { c with H6 := toInt8 (h6 : Nat) })
  let now ← Prog.onWorld (fun _ => fun w => (.ok (env.time w.trace), w.log .time))
  modifyCalibration (fun c => { c with updateTime := now })

/-! ## Compensation -/

/-- The function `getRawTemperature`. -/
def getRawTemperature (env : Env) (s : Session) : Prog World Int := do
  let msb ← readByteData env s TEMP_MSB
  let lsb ← readByteData env s TEMP_LSB
  let xlsb ← readByteData env s TEMP_XLSB
  if msb = 0x80 ∧ lsb = 0x00 ∧ xlsb = 0x00 then raise .readTemperature
  else pure (((msb <<< 12) ||| (lsb <<< 4) ||| (xlsb >>> 4) : Nat) : Int)

/-- The function `calcTemperature`. -/
def calcTemperature (c : Calibration) (raw : Int) : Int :=
  let var1 := shr32 (mul32 (sub32 (shr32 raw 3) (shl32 c.T1 1)) c.T2) 11
  let var2 := shr32 (mul32 (shr32 (mul32 (sub32 (shr32 raw 4) c.T1)
    (sub32 (shr32 raw 4) c.T1)) 12) c.T3) 14
  add32 var1 var2

/-- The function `getFineTemperature`. -/
def getFineTemperature (env : Env) (s : Session) : Prog World Int := do
  let raw ← getRawTemperature env s
  pure (calcTemperature s.calibration raw)

/-- The integer `(fine * 5 + 128) >> 8` that `getTemperature` stores in `temp`:
hundredths of a degree Celsius. -/
def centiDegrees (fine : Int) : Int := shr32 (add32 (mul32 fine 5) 128) 8

/-- The function `getTemperature`, up to its last step: the value returned here is
the integer held by `temp`; the C++ function returns it divided by 100 as a `float`. -/
def getTemperature (env : Env) (s : Session) : Prog World Int := do
  let raw ← getRawTemperature env s
  pure (centiDegrees (calcTemperature s.calibration raw))

/-- The function `readRawHumidity`. -/
def readRawHumidity (env : Env) (s : Session) : Prog World Int := do
  let msb ← readByteData env s HUM_MSB
  let lsb ← readByteData env s HUM_LSB
  if msb = 0x80 ∧ lsb = 0x00 then raise .readHumidity
  else pure (((msb <<< 8) ||| lsb : Nat) : Int)

/-- The arithmetic of `calcHumidity` once the fine temperature is known.  `raw` is a
`uint32_t`, so the first factor of the product is computed in `uint32_t` (its right
shift is logical) and the product itself is a `uint32_t` converted to `int32_t`. -/
def calcHumidityFrom (c : Calibration) (fine : Int) (raw : Int) : Int :=
  let x1 := sub32 fine 76800
  let x1 := toInt32 (umul32
    (ushr32 (uadd32 (usub32 (usub32 (ushl32 raw 14) (toUInt32 (shl32 c.H4 20)))
      (toUInt32 (mul32 c.H5 x1))) 16384) 15)
    (toUInt32 (shr32 (add32 (mul32 (add32 (shr32 (mul32 (shr32 (mul32 x1 c.H6) 10)
      (add32 (shr32 (mul32 x1 c.H3) 11) 32768)) 10) 2097152) c.H2) 8192) 14)))
  let x1 := sub32 x1 (shr32 (mul32 (shr32 (mul32 (shr32 x1 15) (shr32 x1 15)) 7) c.H1) 4)
  toUInt32 (shr32 x1 12)

/-- The function `calcHumidity`. -/
def calcHumidity (env : Env) (s : Session) (raw : Int) : Prog World Int := do
  let fine ← getFineTemperature env s
  pure (calcHumidityFrom s.calibration fine raw)

/-- The function `getHumidity`, up to its last step: the value returned here is the
integer held by `calc`; the C++ function returns it divided by 1024 as a `float`. -/
def getHumidity (env : Env) (s : Session) : Prog World Int := do
  let raw ← readRawHumidity env s
  calcHumidity env s raw

/-- The function `getRawPressure`. -/
def getRawPressure (env : Env) (s : Session) : Prog World Int := do
  let msb ← readByteData env s PRESS_MSB
  let lsb ← readByteData env s PRESS_LSB
  let xlsb ← readByteData env s PRESS_XLSB
  if msb = 0x80 ∧ lsb = 0x00 ∧ xlsb = 0x00 then raise .readPressure
  else pure (((msb <<< 12) ||| (lsb <<< 4) ||| (xlsb >>> 4) : Nat) : Int)

/-- The C++ operator `/` on `int64_t`: a zero divisor is undefined behaviour. -/
def divide64 (a b : Int) : Outcome Int :=
  if b = 0 then .undefined else .ok (div64 a b)

/-- The arithmetic of `calcPressure` once the fine temperature is known. -/
def calcPressureFrom (c : Calibration) (fine : Int) (raw : Int) : Outcome Int :=
  let var1 := sub64 fine 128000
  let var2 := mul64 (mul64 var1 var1) c.P6
  let var2 := add64 var2 (shl64 (mul64 var1 c.P5) 17)
  let var2 := add64 var2 (shl64 c.P4 35)
  let var1 := add64 (shr64 (mul64 (mul64 var1 var1) c.P3) 8) (shl64 (mul64 var1 c.P2) 12)
  let var1 := shr64 (mul64 (add64 (shl64 1 47) var1) c.P1) 33
  let pres := sub32 1048576 raw
  match divide64 (mul64 (sub64 (shl64 pres 31) var2) 3125) var1 with
  | .ok pres =>
    let var1 := shr64 (mul64 (mul64 c.P9 (shr64 pres 13)) (shr64 pres 13)) 25
    let var2 := shr64 (mul64 c.P8 pres) 19
    let pres := add64 (shr64 (add64 (add64 pres var1) var2) 8) (shl64 c.P7 4)
    .ok (toUInt32 (Int.tdiv pres 256))
  | .thrown e => .thrown e
  | .undefined => .undefined
  | .terminated => .terminated

/-- The value `var1` holds in `calcPressure` when the division is reached. -/
def calcPressureVar1 (c : Calibration) (fine : Int) : Int :=
  let var1 := sub64 fine 128000
  let var1 := add64 (shr64 (mul64 (mul64 var1 var1) c.P3) 8) (shl64 (mul64 var1 c.P2) 12)
  shr64 (mul64 (add64 (shl64 1 47) var1) c.P1) 33

/-- The value `var2` holds in `calcPressure` when the division is reached. -/
def calcPressureVar2 (c : Calibration) (fine : Int) : Int :=
  let var1 := sub64 fine 128000
  let var2 := mul64 (mul64 var1 var1) c.P6
  let var2 := add64 var2 (shl64 (mul64 var1 c.P5) 17)
  add64 var2 (shl64 c.P4 35)

/-- The function `calcPressure`. -/
def calcPressure (env : Env) (s : Session) (raw : Int) : Prog World Int := do
  let fine ← getFineTemperature env s
  fun w => (calcPressureFrom s.calibration fine raw, w)

/-- The function `getQfePressure`. -/
def getQfePressure (env : Env) (s : Session) : Prog World Int := do
  let raw ← getRawPressure env s
  calcPressure env s raw

/-- The function `getQnhPressure`; the floating-point scaling by `height` and the
conversion back to `uint32_t` are the parameter `scale`. -/
def getQnhPressure (env : Env) (s : Session) (scale : Int → Int) : Prog World Int := do
  let raw ← getRawPressure env s
  let p ← calcPressure env s raw
  pure (scale p)

/-! ## The registry (`_interfaces`) and `instance` -/

/-- A `BME280` object on the heap with the number of `shared_ptr` owners. -/
structure Object where
  session : Session
  strong : Nat

/-- The process: the live `BME280` objects by address, the static map `_interfaces`
from device path to a weak pointer (the address of the object), and the world. -/
structure Process where
  heap : List (Nat × Object)
  interfaces : List (String × Nat)
  world : World

/-- An address not used by any live object. -/
def freshAddress (heap : List (Nat × Object)) : Nat :=
  (heap.map (fun e => e.1 + 1)).foldr max 0

/-- Write an object at an address. -/
def storeObject (id : Nat) (o : Object) (heap : List (Nat × Object)) : List (Nat × Object) :=
  (id, o) :: heap.filter (fun e => e.1 ≠ id)

/-- Drop one `shared_ptr` to the object at `id`.  The last owner runs `~BME280()`:
`close()`, then `_interfaces.erase(_device)`; an exception leaving the destructor
terminates the process. -/
def release (env : Env) (id : Nat) (p : Process) : Outcome Unit × Process :=
  match p.heap.lookup id with
  | none => (.undefined, p)
  | some o =>
    if o.strong ≤ 1 then
      match close env (o.session, p.world) with
      | (.ok _, (s1, w1)) =>
        (.ok (), { heap := p.heap.filter (fun e => e.1 ≠ id),
                   interfaces := p.interfaces.filter (fun e => e.1 ≠ s1.device),
                   world := w1 })
      | (.thrown _, (s1, w1)) =>
        (.terminated, { p with heap := storeObject id { o with session := s1 } p.heap,
                               world := w1 })
      | (.undefined, (s1, w1)) =>
        (.undefined, { p with heap := storeObject id { o with session := s1 } p.heap,
                              world := w1 })
      | (.terminated, (s1, w1)) =>
        (.terminated, { p with heap := storeObject id { o with session := s1 } p.heap,
                               world := w1 })
    else
      (.ok (), { p with heap := storeObject id { o with strong := o.strong - 1 } p.heap })

/-- The body of the `if (!i2c->opened())` of `instance`. -/
def bringUp (env : Env) (config : Config) : Prog (Session × World) Unit := do
  Session.open env
  Prog.onWorld (fun s => check env s)
  calibration env
  setConfig env config

/-- The first statements of `instance`: look the device up in `_interfaces`; create
and register a new object when there is none, otherwise `lock()` the weak pointer.
The result is the address of the object, the object with the new owner counted, and
the process; `none` when `lock()` yields a null pointer. -/
def Process.findOrCreate (file : String) (p : Process) : Option (Nat × Object × Process) :=
  match p.interfaces.lookup file with
  | none =>
    let id := freshAddress p.heap
    let o : Object := { session := Session.new file, strong := 1 }
    some (id, o, { p with heap := storeObject id o p.heap,
                          interfaces := (file, id) :: p.interfaces })
  | some id =>
    match p.heap.lookup id with
    | none => none
    | some o =>
      let o1 : Object := { o with strong := o.strong + 1 }
      some (id, o1, { p with heap := storeObject id o1 p.heap })

/-- The rest of `instance` on the object `o` at address `id`: the assignment to
`_address`, the `if (!i2c->opened())` and the `return`.  When the body throws, the
local `shared_ptr` is released during unwinding. -/
def Process.activate (env : Env) (id : Nat) (o : Object) (address : Nat) (config : Config)
    (p1 : Process) : Outcome Nat × Process :=
  let s1 : Session := { o.session with address := some (toUInt16 address) }
  if !opened s1 then
    match bringUp env config (s1, p1.world) with
    | (.ok _, (s2, w2)) =>
      (.ok id, { p1 with heap := storeObject id { o with session := s2 } p1.heap,
                         world := w2 })
    | (.thrown e, (s2, w2)) =>
      match release env id { p1 with heap := storeObject id { o with session := s2 } p1.heap,
                                     world := w2 } with
      | (.ok _, p3) => (.thrown e, p3)
      | (.thrown e3, p3) => (.thrown e3, p3)
      | (.undefined, p3) => (.undefined, p3)
      | (.terminated, p3) => (.terminated, p3)
    | (.undefined, (s2, w2)) =>
      (.undefined, { p1 with heap := storeObject id { o with session := s2 } p1.heap,
                             world := w2 })
    | (.terminated, (s2, w2)) =>
      (.terminated, { p1 with heap := storeObject id { o with session := s2 } p1.heap,
                              world := w2 })
  else
    (.ok id, { p1 with heap := storeObject id { o with session := s1 } p1.heap })

/-- The function `instance`.  The result is the address of the object the returned
`shared_ptr` owns; dereferencing a null `lock()` result is undefined behaviour. -/
def Process.instance (env : Env) (file : String) (address : Nat) (config : Config)
    (p : Process) : Outcome Nat × Process :=
  match Process.findOrCreate file p with
  | none => (.undefined, p)
  | some (id, o, p1) => Process.activate env id o address config p1

/-- The object a `shared_ptr` with the given address points to. -/
def Process.object (p : Process) (id : Nat) : Option Object := p.heap.lookup id

/-! ## Reference formulas and test fixtures -/

/-- A stub transport: every byte read of register `r` answers `regs r`, every write
and every OS call succeeds, `::open` returns descriptor 3, a block read returns as
many bytes as requested and the clock reads 1. -/
def Env.stub (regs : Nat → Nat) : Env :=
  { osOpen := fun _ _ => 3
    osClose := fun _ _ => 0
    ioctlSlave := fun _ _ _ => 0
    readByte := fun _ _ r => some (regs r)
    writeByte := fun _ _ _ _ => true
    readBlock := fun _ _ r len => some (len, fun i => regs (r + i))
    time := fun _ => 1 }

/-- The register layout of the packed humidity coefficients as the specification
words it: 0xE4 holds bits 11..4 of H4, the low nibble of 0xE5 bits 3..0 of H4, the
high nibble of 0xE5 bits 3..0 of H5, 0xE6 bits 11..4 of H5, both in 12-bit two's
complement.  The result is the triple of bytes (0xE4, 0xE5, 0xE6). -/
def encodeH4H5 (H4 H5 : Int) : Nat × Nat × Nat :=
  let u4 := (H4 % 4096).toNat
  let u5 := (H5 % 4096).toNat
  (u4 / 16, (u5 % 16) * 16 + u4 % 16, u5 / 16)

/-- The vendor humidity formula as the specification words it, every operation in
signed 32-bit arithmetic with arithmetic right shifts. -/
def vendorHumidity (c : Calibration) (fine : Int) (raw : Int) : Int :=
  let x := sub32 fine 76800
  let x := mul32
    (shr32 (add32 (sub32 (sub32 (shl32 raw 14) (shl32 c.H4 20)) (mul32 c.H5 x)) 16384) 15)
    (shr32 (add32 (mul32 (add32 (shr32 (mul32 (shr32 (mul32 x c.H6) 10)
      (add32 (shr32 (mul32 x c.H3) 11) 32768)) 10) 2097152) c.H2) 8192) 14)
  let x := sub32 x (shr32 (mul32 (shr32 (mul32 (shr32 x 15) (shr32 x 15)) 7) c.H1) 4)
  shr32 x 12

/-- The vendor fine-temperature formula as the specification words it: signed 32-bit
arithmetic, a right shift by `k` being the floor of the division by `2^k`. -/
def vendorFineTemperature (T1 T2 T3 raw : Int) : Int :=
  toInt32
    (toInt32 (toInt32 (raw / 8 - toInt32 (T1 * 2)) * T2) / 2048
      + toInt32 (toInt32 (toInt32 (raw / 16 - T1) * toInt32 (raw / 16 - T1)) / 4096 * T3)
          / 16384)

/-- The centi-degree value `(fine * 5 + 128) >> 8` as the specification words it. -/
def vendorCentiDegrees (fine : Int) : Int := toInt32 (toInt32 (fine * 5) + 128) / 256

/-- The term `var1` of the pressure formula as the specification words it, with
`t = fine - 128000`, in signed 64-bit arithmetic. -/
def vendorVar1 (c : Calibration) (fine : Int) : Int :=
  let t := sub64 fine 128000
  shr64 (mul64 (add64 (add64 (shl64 1 47) (shr64 (mul64 (mul64 t t) c.P3) 8))
    (shl64 (mul64 t c.P2) 12)) c.P1) 33

/-- The term `var2` of the vendor pressure formula, with `t = fine - 128000`:
`t * t * P6 + ((t * P5) << 17) + (P4 << 35)` in signed 64-bit arithmetic. -/
def vendorVar2 (c : Calibration) (fine : Int) : Int :=
  let t := sub64 fine 128000
  add64 (add64 (mul64 (mul64 t t) c.P6) (shl64 (mul64 t c.P5) 17)) (shl64 c.P4 35)

/-- The vendor pressure formula as the specification words it: the Q24.8 value `p`
from `p0`, divided by 256 with truncation and taken as an unsigned 32-bit integer. -/
def vendorPressure (c : Calibration) (fine : Int) (raw : Int) : Int :=
  let p0 := div64 (mul64 (sub64 (shl64 (1048576 - raw) 31) (vendorVar2 c fine)) 3125)
    (vendorVar1 c fine)
  let p := add64 (shr64 (add64 (add64 p0
      (shr64 (mul64 (mul64 c.P9 (shr64 p0 13)) (shr64 p0 13)) 25))
      (shr64 (mul64 c.P8 p0) 19)) 8) (shl64 c.P7 4)
  toUInt32 (Int.tdiv p 256)

/-- The calibration of the Bosch datasheet sample (temperature and pressure). -/
def datasheetCalibration : Calibration :=
  { T1 := 27504, T2 := 26435, T3 := -1000,
    P1 := 36477, P2 := -10685, P3 := 3024, P4 := 2855, P5 := 140, P6 := -7,
    P7 := 15500, P8 := -14600, P9 := 6000 }

/-- A humidity calibration of the usual magnitude. -/
def humidityCalibration : Calibration :=
  { H1 := 75, H2 := 350, H3 := 0, H4 := 300, H5 := 50, H6 := 30 }

/-- Registers of a cold and dry measurement: raw temperature 471808 (0x73300, fine
temperature 51158 with the datasheet coefficients, 9.99 degrees Celsius) and raw
humidity 18000 (0x4650). -/
def coldDryRegisters (r : Nat) : Nat :=
  if r = 0xFA then 0x73 else if r = 0xFB then 0x30
  else if r = 0xFD then 0x46 else if r = 0xFE then 0x50 else 0

/-- Registers of a device whose packed humidity coefficients are H4 = 100 and
H5 = -50 and whose status register reads idle. -/
def packedHumidityRegisters (r : Nat) : Nat :=
  if r = 0xE4 then 0x06 else if r = 0xE5 then 0xE4 else if r = 0xE6 then 0xFC else 0

/-- Registers holding the datasheet raw temperature 519888 (0x7EED0), the datasheet
raw pressure 415148 (0x655AC) and the raw humidity 20000 (0x4E20). -/
def datasheetRegisters (r : Nat) : Nat :=
  if r = 0xFA then 0x7E else if r = 0xFB then 0xED
  else if r = 0xF7 then 0x65 else if r = 0xF8 then 0x5A else if r = 0xF9 then 0xC0
  else if r = 0xFD then 0x4E else if r = 0xFE then 0x20 else 0

/-- An open, calibrated session with the datasheet coefficients for temperature and
pressure and those of `humidityCalibration` for humidity. -/
def datasheetSession : Session :=
  { device := "/dev/i2c-1", address := some 0x77, i2c := 3,
    config := some DEFAULT_CONFIGURATION,
    calibration :=
      { T1 := 27504, T2 := 26435, T3 := -1000,
        P1 := 36477, P2 := -10685, P3 := 3024, P4 := 2855, P5 := 140, P6 := -7,
        P7 := 15500, P8 := -14600, P9 := 6000,
        H1 := 75, H2 := 350, H3 := 0, H4 := 300, H5 := 50, H6 := 30,
        updateTime := 1 } }

/-- An open session on which `calibration` has never run: the coefficients and the
timestamp are the zeros of the constructor. -/
def uncalibratedSession : Session :=
  { device := "/dev/i2c-1", address := some 0x77, i2c := 3,
    config := some DEFAULT_CONFIGURATION, calibration := {} }

/-- The environment answers every byte read on descriptor `fd` from a fixed register
file, whatever happened before. -/
def Env.HoldsRegisters (env : Env) (fd : Int) (regs : Nat → Nat) : Prop :=
  ∀ (hist : List Event) (reg : Nat), env.readByte hist fd reg = some (regs reg)

/-- Registers of a device that has not measured yet: the power-on-reset value 0x80
in the three most significant raw bytes, zero elsewhere. -/
def sentinelRegisters (r : Nat) : Nat :=
  if r = 0xFA then 0x80 else if r = 0xF7 then 0x80 else if r = 0xFD then 0x80 else 0

/-- The events of `n` unsuccessful polls of the status register, newest first: each
poll is a status read followed by a wait of one millisecond. -/
def pollEvents (fd : Int) : Nat → List Event
  | 0 => []
  | n + 1 => .sleepMs 1 :: .smbusReadByte fd STATUS :: pollEvents fd n

/-- Number of status-register reads in a history. -/
def statusReads (fd : Int) (t : List Event) : Nat := t.count (.smbusReadByte fd STATUS)

/-- Number of one-millisecond waits in a history. -/
def waits (t : List Event) : Nat := t.count (.sleepMs 1)

/-- The status register answers busy (a non-zero byte) at the given history. -/
def Env.StatusBusyAt (env : Env) (fd : Int) (hist : List Event) : Prop :=
  ∃ v, env.readByte hist fd STATUS = some v ∧ toUInt8 v ≠ STATUS_OK

/-- The status register answers idle (zero) at the given history. -/
def Env.StatusIdleAt (env : Env) (fd : Int) (hist : List Event) : Prop :=
  ∃ v, env.readByte hist fd STATUS = some v ∧ toUInt8 v = STATUS_OK

/-- A computation that leaves the observation `f` of the session as it was, whatever
its outcome. -/
def Keeps {α β : Type} (f : Session → β) (p : Prog (Session × World) α) : Prop :=
  ∀ sw, f (p sw).2.1 = f sw.1

/-- The empty process: no object, no registry entry, no call made. -/
def Process.initial : Process := { heap := [], interfaces := [], world := ⟨[]⟩ }

/-- Registers of a device that identifies as a BME280 (chip ID 0x60) and is idle. -/
def idleRegisters (r : Nat) : Nat := if r = 0xD0 then 0x60 else 0

/-- The session that the first acquisition of "/dev/i2c-1" at address 0x77 creates on
the idle stub device (see `acquiredSession_created`): Open on descriptor 3, calibrated
at time 1 with all-zero coefficients, default configuration. -/
def acquiredSession : Session :=
  { device := "/dev/i2c-1", address := some 0x77, i2c := 3,
    config := some DEFAULT_CONFIGURATION, calibration := { updateTime := 1 } }

/-- The environment accepts every byte write on descriptor `fd`. -/
def Env.WritesSucceed (env : Env) (fd : Int) : Prop :=
  ∀ (hist : List Event) (reg value : Nat), env.writeByte hist fd reg value = true

/-- A stub transport whose block read reports `n` returned bytes, the `i`-th of
which is `i + 1`, whatever was requested. -/
def Env.stubBlock (n : Nat) : Env :=
  { Env.stub (fun _ => 0) with readBlock := fun _ _ _ _ => some (n, fun i => i + 1) }

/-- A stub transport on which `::close` fails. -/
def Env.stubCloseFails : Env :=
  { Env.stub (fun _ => 0) with osClose := fun _ _ => -1 }

/-- A stub transport on which `::open` succeeds with descriptor 3 and the
`I2C_SLAVE` bind fails. -/
def Env.stubBindFails : Env :=
  { Env.stub (fun _ => 0) with ioctlSlave := fun _ _ _ => -1 }

/-- A stub transport on which `::open` fails. -/
def Env.stubOpenFails : Env :=
  { Env.stub (fun _ => 0) with osOpen := fun _ _ => -1 }

/-- A Closed session with its bus address set, as `instance` leaves it before
calling `open`. -/
def closedSession : Session :=
  { Session.new "/dev/i2c-1" with address := some 0x77 }

/-- The environment answers every block read of `len` bytes at `reg` on descriptor
`fd` with the reported count `n` and the bytes `b`. -/
def Env.BlockReturns (env : Env) (fd : Int) (reg len n : Nat) (b : Nat → Nat) : Prop :=
  ∀ (hist : List Event), env.readBlock hist fd reg len = some (n, b)

/-- The history after a `calibration` in which every call succeeded and the first
status read answered idle, newest event first (without the final call of the clock). -/
def calibrationReads (fd : Int) (t : List Event) : List Event :=
  .smbusReadByte fd HUM_CALIB_H6 ::
  .smbusReadByte fd HUM_CALIB_H5_LSB :: .smbusReadByte fd HUM_CALIB_H5_MSB ::
  .smbusReadByte fd HUM_CALIB_H4_LSB :: .smbusReadByte fd HUM_CALIB_H4_MSB ::
  .smbusReadByte fd HUM_CALIB_H3 ::
  .smbusReadByte fd HUM_CALIB_H2_LSB :: .smbusReadByte fd HUM_CALIB_H2_MSB ::
  .smbusReadByte fd HUM_CALIB_H1 ::
  .smbusReadBlock fd TEMP_PRESS_CALIB_DATA_ADDR TEMP_PRESS_CALIB_DATA_LEN ::
  .smbusReadByte fd STATUS ::
  .smbusWriteByte fd SOFT_RESET_REG SOFT_RESET_COMMAND :: t

/-- The coefficients stored in the session after a run of `calibration`. -/
def calibrated (env : Env) (s : Session) (w : World) : Calibration :=
  (calibration env (s, w)).2.1.calibration

/-- A 16-bit pattern read as a two's-complement signed value. -/
def signed16 (v : Nat) : Int := if v < 32768 then (v : Int) else (v : Int) - 65536

/-- An 8-bit pattern read as a two's-complement signed value. -/
def signed8 (v : Nat) : Int := if v < 128 then (v : Int) else (v : Int) - 256

/-- Little-endian encoding of a 16-bit coefficient as the specification words it: the
low byte first, then the high byte, of the value modulo `2^16`. -/
def encodeLE16 (v : Int) : Nat × Nat :=
  ((v % 65536).toNat % 256, (v % 65536).toNat / 256)

/-- Encoding of an 8-bit coefficient: the value modulo `2^8`. -/
def encode8 (v : Int) : Nat := (v % 256).toNat

/-- Registers of a device with humidity coefficients H1 = 75, H2 = -2 (0xFFFE),
H3 = 200, H6 = -3 (0xFD), chip ID 0x60 and an idle status register. -/
def humidityCoefficientRegisters (r : Nat) : Nat :=
  if r = 0xD0 then 0x60 else if r = 0xA1 then 75 else if r = 0xE1 then 0xFE
  else if r = 0xE2 then 0xFF else if r = 0xE3 then 200 else if r = 0xE7 then 0xFD else 0

/-- A stub transport with the registers of `humidityCoefficientRegisters` whose block
read at 0x88 returns the 24 bytes `1, 2, ..., 24`. -/
def Env.stubCalibration : Env :=
  { Env.stub humidityCoefficientRegisters with
    readBlock := fun _ _ _ _ => some (24, fun i => (i + 1) % 256) }

/-- Starting at history `hist`, the successive byte reads of the listed registers on
descriptor `fd` are answered with the listed bytes. -/
def Env.AnswersFrom (env : Env) (fd : Int) : List Event → List (Nat × Nat) → Prop
  | _, [] => True
  | hist, (reg, v) :: rest =>
    env.readByte hist fd reg = some v ∧ v < 256 ∧
      Env.AnswersFrom env fd (.smbusReadByte fd reg :: hist) rest

/-- The value `(msb << 12) | (lsb << 4) | (xlsb >> 4)` of three raw bytes. -/
def raw20 (msb lsb xlsb : Nat) : Int := (((msb <<< 12) ||| (lsb <<< 4) ||| (xlsb >>> 4) : Nat) : Int)

/-- The value `(msb << 8) | lsb` of two raw bytes. -/
def raw16 (msb lsb : Nat) : Int := (((msb <<< 8) ||| lsb : Nat) : Int)

/-- Registers of a humid measurement: the datasheet raw temperature 519888 (0x7EED0,
fine temperature 128422) and raw humidity 40000 (0x9C40). -/
def humidRegisters (r : Nat) : Nat :=
  if r = 0xFA then 0x7E else if r = 0xFB then 0xED
  else if r = 0xFD then 0x9C else if r = 0xFE then 0x40 else 0

/-- The formula of `calcTemperature` over unbounded integers, a right shift by `k`
being the floor of the division by `2^k`. -/
def calcTemperatureExact (c : Calibration) (raw : Int) : Int :=
  ((raw / 8 - c.T1 * 2) * c.T2) / 2048
    + (((raw / 16 - c.T1) * (raw / 16 - c.T1)) / 4096 * c.T3) / 16384

/-- A value representable in `int32_t`. -/
def InInt32 (z : Int) : Prop := -2147483648 ≤ z ∧ z ≤ 2147483647

/-- A calibration within the declared widths whose temperature coefficients make the
first product of `calcTemperature` overflow at the largest raw value. -/
def extremeCalibration : Calibration := { T1 := 0, T2 := 32767, T3 := 0 }

/-- The public function `close` called through a `shared_ptr` to the object at
address `id`; a null pointer is undefined behaviour. -/
def Process.close (env : Env) (id : Nat) (p : Process) : Outcome Unit × Process :=
  match p.heap.lookup id with
  | none => (.undefined, p)
  | some o =>
    match BME280.close env (o.session, p.world) with
    | (r, (s1, w1)) =>
      (r, { p with heap := storeObject id { o with session := s1 } p.heap, world := w1 })

/-- The history of a successful bring-up of "/dev/i2c-1" at address 0x77 on descriptor
3 with the default configuration, every call succeeding and the first status read
answering idle, newest event first, on top of the history `t`. -/
def bringUpTrace (t : List Event) : List Event :=
  .sleepMs 250 :: .smbusWriteByte 3 CTRL 111 :: .smbusWriteByte 3 CTRL_HUM 3 ::
  .smbusWriteByte 3 CONFIG 128 :: .time ::
  calibrationReads 3
    (.smbusReadByte 3 CHIP_ID_REG :: .ioctlSlave 3 0x77 :: .osOpen "/dev/i2c-1" :: t)

/-- The process after the first acquisition of "/dev/i2c-1" on the idle stub device
followed by `close` on the session (see `close_after_acquisition`): the object is
alive with its one owner, registered, and Closed. -/
def reclosedProcess : Process :=
  { heap := [(0, { session := { acquiredSession with i2c := CLOSE }, strong := 1 })],
    interfaces := [("/dev/i2c-1", 0)],
    world := ⟨.osClose 3 :: bringUpTrace []⟩ }

/-! ## Theorems -/

/-- C1 (code defect).  The bytes that encode H4 = 100 and H5 = -50 are 0x06, 0xE4 and
0xFC; on a device holding them `calibration` completes and stores H4 = 100 but
H5 = 4046: the 12-bit field is not sign-extended, so a negative coefficient is not
recovered. -/
theorem calibration_H5_not_sign_extended :
    encodeH4H5 100 (-50) = (0x06, 0xE4, 0xFC) ∧
    (calibration (Env.stub packedHumidityRegisters) (Session.new "/dev/i2c-1", ⟨[]⟩)).1
      = .ok () ∧
    (calibration (Env.stub packedHumidityRegisters)
      (Session.new "/dev/i2c-1", ⟨[]⟩)).2.1.calibration.H4 = 100 ∧
    (calibration (Env.stub packedHumidityRegisters)
      (Session.new "/dev/i2c-1", ⟨[]⟩)).2.1.calibration.H5 = 4046 ∧
    decodeH5 0xFC 0xE4 ≠ -50 := by
  refine ⟨by decide, by decide, by decide, by decide, by decide⟩

/-! ### Sequencing lemmas -/

theorem Prog.bind_ok {σ α β : Type} (p : Prog σ α) (f : α → Prog σ β) (s s1 : σ) (a : α)
    (h : p s = (.ok a, s1)) : (p >>= f) s = f a s1 := by
  show Prog.bind p f s = _
  unfold Prog.bind
  rw [h]

theorem Prog.bind_thrown {σ α β : Type} (p : Prog σ α) (f : α → Prog σ β) (s s1 : σ)
    (e : Error) (h : p s = (.thrown e, s1)) : (p >>= f) s = (.thrown e, s1) := by
  show Prog.bind p f s = _
  unfold Prog.bind
  rw [h]

theorem Prog.pure_apply {σ α : Type} (a : α) (s : σ) :
    (pure a : Prog σ α) s = (.ok a, s) := rfl

/-! ### Arithmetic lemmas -/

theorem shr32_eq_div (a : Int) (k : Nat) : shr32 a k = a / 2 ^ k := by
  unfold shr32
  rw [Int.shiftRight_eq_div_pow]
  norm_cast

theorem toInt64_add_toInt64 (a b : Int) : toInt64 (a + toInt64 b) = toInt64 (a + b) := by
  unfold toInt64
  omega

theorem toInt64_toInt64_add (a b : Int) : toInt64 (toInt64 a + b) = toInt64 (a + b) := by
  unfold toInt64
  omega

theorem calcTemperature_eq_vendor (c : Calibration) (raw : Int) :
    calcTemperature c raw = vendorFineTemperature c.T1 c.T2 c.T3 raw := by
  simp only [calcTemperature, vendorFineTemperature, shr32_eq_div, add32, sub32, mul32, shl32]
  norm_num

theorem centiDegrees_eq_vendor (fine : Int) : centiDegrees fine = vendorCentiDegrees fine := by
  simp only [centiDegrees, vendorCentiDegrees, shr32_eq_div, add32, mul32]
  norm_num

theorem calcPressureVar1_eq_vendor (c : Calibration) (fine : Int) :
    calcPressureVar1 c fine = vendorVar1 c fine := by
  simp only [calcPressureVar1, vendorVar1, add64]
  rw [toInt64_add_toInt64, toInt64_toInt64_add, add_assoc]

theorem calcPressureVar2_eq_vendor (c : Calibration) (fine : Int) :
    calcPressureVar2 c fine = vendorVar2 c fine := rfl

/-- The function `calcPressureFrom` in terms of the values of `var1` and `var2` at the
division. -/
theorem calcPressureFrom_eq (c : Calibration) (fine raw : Int) :
    calcPressureFrom c fine raw =
      match divide64 (mul64 (sub64 (shl64 (sub32 1048576 raw) 31) (calcPressureVar2 c fine)) 3125)
          (calcPressureVar1 c fine) with
      | .ok pres =>
        .ok (toUInt32 (Int.tdiv (add64 (shr64 (add64 (add64 pres
          (shr64 (mul64 (mul64 c.P9 (shr64 pres 13)) (shr64 pres 13)) 25))
          (shr64 (mul64 c.P8 pres) 19)) 8) (shl64 c.P7 4)) 256))
      | .thrown e => .thrown e
      | .undefined => .undefined
      | .terminated => .terminated := rfl

theorem calcPressureFrom_zero (c : Calibration) (fine raw : Int)
    (h : vendorVar1 c fine = 0) : calcPressureFrom c fine raw = .undefined := by
  rw [calcPressureFrom_eq, calcPressureVar1_eq_vendor, h]
  rfl

theorem calcPressureFrom_nonzero (c : Calibration) (fine raw : Int)
    (hraw : 0 ≤ raw ∧ raw < 1048576) (h : vendorVar1 c fine ≠ 0) :
    calcPressureFrom c fine raw = .ok (vendorPressure c fine raw) := by
  have hsub : sub32 1048576 raw = 1048576 - raw := by
    unfold sub32 toInt32
    omega
  rw [calcPressureFrom_eq, hsub, calcPressureVar1_eq_vendor, divide64, if_neg h]
  simp only [vendorPressure, calcPressureVar2_eq_vendor]

theorem calcPressure_of_fine (env : Env) (s : Session) (raw fine : Int) (w w1 : World)
    (hfine : getFineTemperature env s w = (.ok fine, w1)) :
    calcPressure env s raw w = (calcPressureFrom s.calibration fine raw, w1) := by
  unfold calcPressure
  rw [Prog.bind_ok _ _ _ _ _ hfine]

theorem getQfePressure_of_raw (env : Env) (s : Session) (raw : Int) (w w1 : World)
    (hraw : getRawPressure env s w = (.ok raw, w1)) :
    getQfePressure env s w = calcPressure env s raw w1 := by
  unfold getQfePressure
  rw [Prog.bind_ok _ _ _ _ _ hraw]

/-! ### Raw reads from a register file -/

theorem readByteData_of_holds (env : Env) (s : Session) (regs : Nat → Nat)
    (h : env.HoldsRegisters s.i2c regs) (hb : ∀ r, regs r < 256) (r : Nat) (w : World) :
    readByteData env s r w = (.ok (regs r), w.log (.smbusReadByte s.i2c r)) := by
  unfold readByteData
  rw [h]
  simp only [toUInt8, Nat.mod_eq_of_lt (hb r)]

theorem assemble20_lt (msb lsb xlsb : Nat) (hm : msb < 256) (hl : lsb < 256) (hx : xlsb < 256) :
    (msb <<< 12) ||| (lsb <<< 4) ||| (xlsb >>> 4) < 2 ^ 20 := by
  apply Nat.or_lt_two_pow
  · apply Nat.or_lt_two_pow
    · rw [Nat.shiftLeft_eq]; omega
    · rw [Nat.shiftLeft_eq]; omega
  · rw [Nat.shiftRight_eq_div_pow]; omega

theorem assemble16_lt (msb lsb : Nat) (hm : msb < 256) (hl : lsb < 256) :
    (msb <<< 8) ||| lsb < 2 ^ 16 := by
  apply Nat.or_lt_two_pow
  · rw [Nat.shiftLeft_eq]; omega
  · omega

theorem getRawTemperature_of_holds (env : Env) (s : Session) (regs : Nat → Nat)
    (h : env.HoldsRegisters s.i2c regs) (hb : ∀ r, regs r < 256) (w : World) :
    getRawTemperature env s w =
      (if regs TEMP_MSB = 0x80 ∧ regs TEMP_LSB = 0x00 ∧ regs TEMP_XLSB = 0x00 then
          .thrown .readTemperature
        else .ok (((regs TEMP_MSB <<< 12) ||| (regs TEMP_LSB <<< 4)
          ||| (regs TEMP_XLSB >>> 4) : Nat) : Int),
        ((w.log (.smbusReadByte s.i2c TEMP_MSB)).log (.smbusReadByte s.i2c TEMP_LSB)).log
          (.smbusReadByte s.i2c TEMP_XLSB)) := by
  unfold getRawTemperature
  rw [Prog.bind_ok _ _ _ _ _ (readByteData_of_holds env s regs h hb _ _),
    Prog.bind_ok _ _ _ _ _ (readByteData_of_holds env s regs h hb _ _),
    Prog.bind_ok _ _ _ _ _ (readByteData_of_holds env s regs h hb _ _)]
  split_ifs <;> rfl

theorem getRawPressure_of_holds (env : Env) (s : Session) (regs : Nat → Nat)
    (h : env.HoldsRegisters s.i2c regs) (hb : ∀ r, regs r < 256) (w : World) :
    getRawPressure env s w =
      (if regs PRESS_MSB = 0x80 ∧ regs PRESS_LSB = 0x00 ∧ regs PRESS_XLSB = 0x00 then
          .thrown .readPressure
        else .ok (((regs PRESS_MSB <<< 12) ||| (regs PRESS_LSB <<< 4)
          ||| (regs PRESS_XLSB >>> 4) : Nat) : Int),
        ((w.log (.smbusReadByte s.i2c PRESS_MSB)).log (.smbusReadByte s.i2c PRESS_LSB)).log
          (.smbusReadByte s.i2c PRESS_XLSB)) := by
  unfold getRawPressure
  rw [Prog.bind_ok _ _ _ _ _ (readByteData_of_holds env s regs h hb _ _),
    Prog.bind_ok _ _ _ _ _ (readByteData_of_holds env s regs h hb _ _),
    Prog.bind_ok _ _ _ _ _ (readByteData_of_holds env s regs h hb _ _)]
  split_ifs <;> rfl

theorem readRawHumidity_of_holds (env : Env) (s : Session) (regs : Nat → Nat)
    (h : env.HoldsRegisters s.i2c regs) (hb : ∀ r, regs r < 256) (w : World) :
    readRawHumidity env s w =
      (if regs HUM_MSB = 0x80 ∧ regs HUM_LSB = 0x00 then .thrown .readHumidity
        else .ok (((regs HUM_MSB <<< 8) ||| regs HUM_LSB : Nat) : Int),
        (w.log (.smbusReadByte s.i2c HUM_MSB)).log (.smbusReadByte s.i2c HUM_LSB)) := by
  unfold readRawHumidity
  rw [Prog.bind_ok _ _ _ _ _ (readByteData_of_holds env s regs h hb _ _),
    Prog.bind_ok _ _ _ _ _ (readByteData_of_holds env s regs h hb _ _)]
  split_ifs <;> rfl

/-! ### The polling loop of the soft reset -/

theorem pollEvents_succ_append (fd : Int) (n : Nat) (t : List Event) :
    pollEvents fd (n + 1) ++ t
      = pollEvents fd n ++ (.sleepMs 1 :: .smbusReadByte fd STATUS :: t) := by
  induction n with
  | zero => rfl
  | succ n ih =>
    show Event.sleepMs 1 :: Event.smbusReadByte fd STATUS :: (pollEvents fd (n + 1) ++ t) = _
    rw [ih]
    rfl

theorem statusReads_pollEvents (fd : Int) (n : Nat) (t : List Event) :
    statusReads fd (pollEvents fd n ++ t) = n + statusReads fd t := by
  induction n with
  | zero => simp [pollEvents]
  | succ n ih =>
    simp only [statusReads] at ih ⊢
    simp only [pollEvents, List.cons_append]
    rw [List.count_cons, List.count_cons, ih]
    simp
    omega

theorem waits_pollEvents (fd : Int) (n : Nat) (t : List Event) :
    waits (pollEvents fd n ++ t) = n + waits t := by
  induction n with
  | zero => simp [pollEvents]
  | succ n ih =>
    simp only [waits] at ih ⊢
    simp only [pollEvents, List.cons_append]
    rw [List.count_cons, List.count_cons, ih]
    simp
    omega

theorem softResetLoop_busy_step (env : Env) (s : Session) (n : Nat) (t : List Event)
    (h : env.StatusBusyAt s.i2c t) :
    softResetLoop env s n ⟨t⟩ =
      match n with
      | 0 => (.thrown .softResetFailed, ⟨.sleepMs 1 :: .smbusReadByte s.i2c STATUS :: t⟩)
      | m + 1 => softResetLoop env s m ⟨.sleepMs 1 :: .smbusReadByte s.i2c STATUS :: t⟩ := by
  obtain ⟨v, hv, hne⟩ := h
  cases n with
  | zero =>
    unfold softResetLoop
    simp only [readByteData, hv, sleepFor, World.log]
    rw [if_pos hne]
  | succ m =>
    rw [softResetLoop]
    simp only [readByteData, hv, sleepFor, World.log]
    rw [if_pos hne]

theorem softResetLoop_idle_step (env : Env) (s : Session) (n : Nat) (t : List Event)
    (h : env.StatusIdleAt s.i2c t) :
    softResetLoop env s n ⟨t⟩ = (.ok (), ⟨.smbusReadByte s.i2c STATUS :: t⟩) := by
  obtain ⟨v, hv, he⟩ := h
  unfold softResetLoop
  simp only [readByteData, hv, World.log]
  rw [if_neg (not_not.mpr he)]

theorem softResetLoop_timeout (env : Env) (s : Session) (n : Nat) :
    ∀ t : List Event, (∀ j, j ≤ n → env.StatusBusyAt s.i2c (pollEvents s.i2c j ++ t)) →
      softResetLoop env s n ⟨t⟩
        = (.thrown .softResetFailed, ⟨pollEvents s.i2c (n + 1) ++ t⟩) := by
  induction n with
  | zero =>
    intro t h
    rw [softResetLoop_busy_step env s 0 t (h 0 (Nat.le_refl 0))]
    rfl
  | succ m ih =>
    intro t h
    rw [softResetLoop_busy_step env s (m + 1) t (h 0 (Nat.zero_le _))]
    show softResetLoop env s m _ = _
    rw [ih, ← pollEvents_succ_append]
    intro j hj
    rw [← pollEvents_succ_append]
    exact h (j + 1) (by omega)

theorem softResetLoop_success (env : Env) (s : Session) (n : Nat) :
    ∀ (k : Nat) (t : List Event), k ≤ n →
      (∀ j, j < k → env.StatusBusyAt s.i2c (pollEvents s.i2c j ++ t)) →
      env.StatusIdleAt s.i2c (pollEvents s.i2c k ++ t) →
      softResetLoop env s n ⟨t⟩
        = (.ok (), ⟨.smbusReadByte s.i2c STATUS :: (pollEvents s.i2c k ++ t)⟩) := by
  induction n with
  | zero =>
    intro k t hk _ hidle
    have hk0 : k = 0 := by omega
    subst hk0
    exact softResetLoop_idle_step env s 0 t hidle
  | succ m ih =>
    intro k t hk hbusy hidle
    cases k with
    | zero => exact softResetLoop_idle_step env s (m + 1) t hidle
    | succ k =>
      rw [softResetLoop_busy_step env s (m + 1) t (hbusy 0 (Nat.succ_pos _))]
      show softResetLoop env s m _ = _
      rw [ih k _ (by omega), ← pollEvents_succ_append]
      · intro j hj
        rw [← pollEvents_succ_append]
        exact hbusy (j + 1) (by omega)
      · rw [← pollEvents_succ_append]
        exact hidle

/-- The object that `instance` creates from the empty process on the idle stub device
holds `acquiredSession` and has one owner. -/
theorem acquiredSession_created :
    (Process.instance (Env.stub idleRegisters) "/dev/i2c-1" 0x77 DEFAULT_CONFIGURATION
      Process.initial).2.object 0 = some { session := acquiredSession, strong := 1 } := rfl

/-! ### The claims -/

/-- C2 (code defect).  With raw humidity 18000, fine temperature 51158 and the
coefficients of `humidityCalibration`, `calcHumidity` computes 344152 while the
vendor formula in signed 32-bit arithmetic gives -6071 (4294961225 as an unsigned
32-bit integer): the first factor is negative and the code shifts it logically.  No
signed operation overflows on this input. -/
theorem calcHumidity_differs_from_vendor :
    getFineTemperature (Env.stub coldDryRegisters) datasheetSession ⟨[]⟩
      = (.ok 51158,
          ⟨[.smbusReadByte 3 0xFC, .smbusReadByte 3 0xFB, .smbusReadByte 3 0xFA]⟩) ∧
    (calcHumidity (Env.stub coldDryRegisters) datasheetSession 18000 ⟨[]⟩).1
      = .ok 344152 ∧
    (getHumidity (Env.stub coldDryRegisters) datasheetSession ⟨[]⟩).1 = .ok 344152 ∧
    calcHumidityFrom humidityCalibration 51158 18000 = 344152 ∧
    vendorHumidity humidityCalibration 51158 18000 = -6071 ∧
    toUInt32 (vendorHumidity humidityCalibration 51158 18000) = 4294961225 ∧
    calcHumidityFrom humidityCalibration 51158 18000
      ≠ toUInt32 (vendorHumidity humidityCalibration 51158 18000) := by
  refine ⟨by decide, by decide, by decide, by decide, by decide, by decide, by decide⟩

/-- C3 (code defect).  When the term `var1` of the pressure formula is zero,
`calcPressure` throws nothing: it reaches the division with a zero divisor, which is
undefined behaviour, and so do `getQfePressure` and `getQnhPressure`. -/
theorem calcPressure_zero_var1_divides (env : Env) (s : Session) (raw fine : Int)
    (w w1 w2 : World)
    (hraw : getRawPressure env s w = (.ok raw, w1))
    (hfine : getFineTemperature env s w1 = (.ok fine, w2))
    (hvar1 : vendorVar1 s.calibration fine = 0) :
    calcPressure env s raw w1 = (.undefined, w2) ∧
    getQfePressure env s w = (.undefined, w2) ∧
    (∀ scale, getQnhPressure env s scale w = (.undefined, w2)) ∧
    (∀ e, (calcPressure env s raw w1).1 ≠ .thrown e) := by
  have h1 : calcPressure env s raw w1 = (.undefined, w2) := by
    rw [calcPressure_of_fine env s raw fine w1 w2 hfine,
      calcPressureFrom_zero _ _ _ hvar1]
  refine ⟨h1, ?_, ?_, ?_⟩
  · rw [getQfePressure_of_raw env s raw w w1 hraw, h1]
  · intro scale
    unfold getQnhPressure
    rw [Prog.bind_ok _ _ _ _ _ hraw]
    show Prog.bind (calcPressure env s raw) _ w1 = _
    unfold Prog.bind
    rw [h1]
  · intro e
    rw [h1]
    exact fun h => Outcome.noConfusion h

/-- Witness of C3: the session that `instance` creates on a device whose calibration
registers all read zero (so `P1 = 0`), asked for the pressure. -/
theorem calcPressure_zero_var1_divides_witness :
    getQfePressure (Env.stub idleRegisters) acquiredSession ⟨[]⟩
      = (.undefined,
          ⟨[.smbusReadByte 3 0xFC, .smbusReadByte 3 0xFB, .smbusReadByte 3 0xFA,
            .smbusReadByte 3 0xF9, .smbusReadByte 3 0xF8, .smbusReadByte 3 0xF7]⟩) :=
  (calcPressure_zero_var1_divides (Env.stub idleRegisters) acquiredSession
    0 0 ⟨[]⟩
    ⟨[.smbusReadByte 3 0xF9, .smbusReadByte 3 0xF8, .smbusReadByte 3 0xF7]⟩
    ⟨[.smbusReadByte 3 0xFC, .smbusReadByte 3 0xFB, .smbusReadByte 3 0xFA,
      .smbusReadByte 3 0xF9, .smbusReadByte 3 0xF8, .smbusReadByte 3 0xF7]⟩
    (by decide) (by decide) (by decide)).2.1

/-- C4.  For every raw value and calibration `calcTemperature` is the vendor formula
in signed 32-bit arithmetic with floor right shifts; `getTemperature` applies
`(fine * 5 + 128) >> 8` to it; on the datasheet sample (raw 519888, T1 = 27504,
T2 = 26435, T3 = -1000) the fine temperature is 128422 and the centi-degree value is
2508. -/
theorem calcTemperature_is_vendor_formula :
    (∀ (c : Calibration) (raw : Int),
      calcTemperature c raw = vendorFineTemperature c.T1 c.T2 c.T3 raw) ∧
    (∀ (env : Env) (s : Session),
      getTemperature env s =
        (getRawTemperature env s >>= fun raw =>
          pure (vendorCentiDegrees
            (vendorFineTemperature s.calibration.T1 s.calibration.T2 s.calibration.T3 raw)))) ∧
    calcTemperature datasheetCalibration 519888 = 128422 ∧
    vendorFineTemperature 27504 26435 (-1000) 519888 = 128422 ∧
    centiDegrees 128422 = 2508 ∧
    (getTemperature (Env.stub datasheetRegisters) datasheetSession ⟨[]⟩).1 = .ok 2508 := by
  refine ⟨calcTemperature_eq_vendor, ?_, by decide, by decide, by decide, by decide⟩
  intro env s
  simp only [getTemperature, calcTemperature_eq_vendor, centiDegrees_eq_vendor]

/-- C5.  For every raw pressure in `[0, 2^20)`, fine temperature and calibration with
`var1 ≠ 0`, `calcPressure` returns the vendor Q24.8 value divided by 256 with
truncation, as an unsigned 32-bit integer; on the datasheet sample the result is
100653 Pa. -/
theorem calcPressure_is_vendor_formula (env : Env) (s : Session) (raw fine : Int)
    (w w1 : World)
    (hfine : getFineTemperature env s w = (.ok fine, w1))
    (hraw : 0 ≤ raw ∧ raw < 1048576)
    (hvar1 : vendorVar1 s.calibration fine ≠ 0) :
    calcPressure env s raw w = (.ok (vendorPressure s.calibration fine raw), w1) ∧
    calcPressureFrom s.calibration fine raw = .ok (vendorPressure s.calibration fine raw) ∧
    calcPressureFrom datasheetCalibration 128422 415148 = .ok 100653 := by
  have h := calcPressureFrom_nonzero s.calibration fine raw hraw hvar1
  refine ⟨?_, h, by decide⟩
  rw [calcPressure_of_fine env s raw fine w w1 hfine, h]

/-- Witness of C5: the datasheet sample read through the stub device. -/
theorem calcPressure_is_vendor_formula_witness :
    calcPressure (Env.stub datasheetRegisters) datasheetSession 415148 ⟨[]⟩
      = (.ok (vendorPressure datasheetSession.calibration 128422 415148),
          ⟨[.smbusReadByte 3 0xFC, .smbusReadByte 3 0xFB, .smbusReadByte 3 0xFA]⟩) ∧
    vendorPressure datasheetSession.calibration 128422 415148 = 100653 :=
  ⟨(calcPressure_is_vendor_formula (Env.stub datasheetRegisters) datasheetSession
      415148 128422 ⟨[]⟩
      ⟨[.smbusReadByte 3 0xFC, .smbusReadByte 3 0xFB, .smbusReadByte 3 0xFA]⟩
      (by decide) (by decide) (by decide)).1, by decide⟩

/-- C6.  On a device whose registers hold given bytes, `getRawTemperature` and
`getRawPressure` fail exactly when their three bytes are 0x80, 0x00, 0x00 and
otherwise return `(msb << 12) | (lsb << 4) | (xlsb >> 4)`, a value below `2^20`;
`readRawHumidity` fails exactly when its two bytes are 0x80, 0x00 and otherwise
returns `(msb << 8) | lsb`, a value below `2^16`; `getTemperature`, `getHumidity` and
`getQfePressure` throw when their own raw registers hold the sentinel. -/
theorem raw_reads_reject_sentinel (env : Env) (s : Session) (regs : Nat → Nat) (w : World)
    (h : env.HoldsRegisters s.i2c regs) (hb : ∀ r, regs r < 256) :
    (((∃ e, (getRawTemperature env s w).1 = .thrown e) ↔
        (regs TEMP_MSB = 0x80 ∧ regs TEMP_LSB = 0x00 ∧ regs TEMP_XLSB = 0x00)) ∧
      (¬ (regs TEMP_MSB = 0x80 ∧ regs TEMP_LSB = 0x00 ∧ regs TEMP_XLSB = 0x00) →
        (getRawTemperature env s w).1 = .ok (((regs TEMP_MSB <<< 12)
          ||| (regs TEMP_LSB <<< 4) ||| (regs TEMP_XLSB >>> 4) : Nat) : Int)) ∧
      (regs TEMP_MSB <<< 12) ||| (regs TEMP_LSB <<< 4) ||| (regs TEMP_XLSB >>> 4) < 2 ^ 20) ∧
    (((∃ e, (getRawPressure env s w).1 = .thrown e) ↔
        (regs PRESS_MSB = 0x80 ∧ regs PRESS_LSB = 0x00 ∧ regs PRESS_XLSB = 0x00)) ∧
      (¬ (regs PRESS_MSB = 0x80 ∧ regs PRESS_LSB = 0x00 ∧ regs PRESS_XLSB = 0x00) →
        (getRawPressure env s w).1 = .ok (((regs PRESS_MSB <<< 12)
          ||| (regs PRESS_LSB <<< 4) ||| (regs PRESS_XLSB >>> 4) : Nat) : Int)) ∧
      (regs PRESS_MSB <<< 12) ||| (regs PRESS_LSB <<< 4) ||| (regs PRESS_XLSB >>> 4)
        < 2 ^ 20) ∧
    (((∃ e, (readRawHumidity env s w).1 = .thrown e) ↔
        (regs HUM_MSB = 0x80 ∧ regs HUM_LSB = 0x00)) ∧
      (¬ (regs HUM_MSB = 0x80 ∧ regs HUM_LSB = 0x00) →
        (readRawHumidity env s w).1
          = .ok (((regs HUM_MSB <<< 8) ||| regs HUM_LSB : Nat) : Int)) ∧
      (regs HUM_MSB <<< 8) ||| regs HUM_LSB < 2 ^ 16) ∧
    ((regs TEMP_MSB = 0x80 ∧ regs TEMP_LSB = 0x00 ∧ regs TEMP_XLSB = 0x00) →
      (getTemperature env s w).1 = .thrown .readTemperature) ∧
    ((regs HUM_MSB = 0x80 ∧ regs HUM_LSB = 0x00) →
      (getHumidity env s w).1 = .thrown .readHumidity) ∧
    ((regs PRESS_MSB = 0x80 ∧ regs PRESS_LSB = 0x00 ∧ regs PRESS_XLSB = 0x00) →
      (getQfePressure env s w).1 = .thrown .readPressure) := by
  have hT := getRawTemperature_of_holds env s regs h hb w
  have hP := getRawPressure_of_holds env s regs h hb w
  have hH := readRawHumidity_of_holds env s regs h hb w
  refine ⟨⟨?_, ?_, assemble20_lt _ _ _ (hb _) (hb _) (hb _)⟩,
    ⟨?_, ?_, assemble20_lt _ _ _ (hb _) (hb _) (hb _)⟩,
    ⟨?_, ?_, assemble16_lt _ _ (hb _) (hb _)⟩, ?_, ?_, ?_⟩
  · rw [hT]
    constructor
    · rintro ⟨e, he⟩
      by_contra hn
      rw [if_neg hn] at he
      exact Outcome.noConfusion he
    · intro hs
      exact ⟨.readTemperature, by rw [if_pos hs]⟩
  · intro hn
    rw [hT, if_neg hn]
  · rw [hP]
    constructor
    · rintro ⟨e, he⟩
      by_contra hn
      rw [if_neg hn] at he
      exact Outcome.noConfusion he
    · intro hs
      exact ⟨.readPressure, by rw [if_pos hs]⟩
  · intro hn
    rw [hP, if_neg hn]
  · rw [hH]
    constructor
    · rintro ⟨e, he⟩
      by_contra hn
      rw [if_neg hn] at he
      exact Outcome.noConfusion he
    · intro hs
      exact ⟨.readHumidity, by rw [if_pos hs]⟩
  · intro hn
    rw [hH, if_neg hn]
  · intro hs
    rw [if_pos hs] at hT
    unfold getTemperature
    rw [Prog.bind_thrown _ _ _ _ _ hT]
  · intro hs
    rw [if_pos hs] at hH
    unfold getHumidity
    rw [Prog.bind_thrown _ _ _ _ _ hH]
  · intro hs
    rw [if_pos hs] at hP
    unfold getQfePressure
    rw [Prog.bind_thrown _ _ _ _ _ hP]

theorem sentinelRegisters_lt (r : Nat) : sentinelRegisters r < 256 := by
  unfold sentinelRegisters
  split_ifs <;> decide

theorem datasheetRegisters_lt (r : Nat) : datasheetRegisters r < 256 := by
  unfold datasheetRegisters
  split_ifs <;> decide

theorem stub_holds (regs : Nat → Nat) (fd : Int) : (Env.stub regs).HoldsRegisters fd regs :=
  fun _ _ => rfl

/-- Witness of C6: the stub device in its power-on-reset state. -/
theorem raw_reads_reject_sentinel_witness :
    (getTemperature (Env.stub sentinelRegisters) datasheetSession ⟨[]⟩).1
      = .thrown .readTemperature :=
  (raw_reads_reject_sentinel (Env.stub sentinelRegisters) datasheetSession sentinelRegisters
    ⟨[]⟩ (stub_holds _ _) sentinelRegisters_lt).2.2.2.1 (by decide)

theorem softReset_of_write (env : Env) (s : Session) (w : World)
    (hw : env.writeByte w.trace s.i2c SOFT_RESET_REG SOFT_RESET_COMMAND = true) :
    softReset env s w
      = softResetLoop env s 999
          ⟨.smbusWriteByte s.i2c SOFT_RESET_REG SOFT_RESET_COMMAND :: w.trace⟩ := by
  unfold softReset
  have h1 : writedByteData env s SOFT_RESET_REG SOFT_RESET_COMMAND w
      = (.ok (), ⟨.smbusWriteByte s.i2c SOFT_RESET_REG SOFT_RESET_COMMAND :: w.trace⟩) := by
    unfold writedByteData
    rw [if_pos hw]
    rfl
  rw [Prog.bind_ok _ _ _ _ _ h1]
  rfl

theorem statusReads_write (fd : Int) (r v : Nat) (t : List Event) :
    statusReads fd (.smbusWriteByte fd r v :: t) = statusReads fd t := by
  simp [statusReads, List.count_cons]

theorem waits_write (fd : Int) (r v : Nat) (t : List Event) :
    waits (.smbusWriteByte fd r v :: t) = waits t := by
  simp [waits, List.count_cons]

theorem statusReads_read (fd : Int) (t : List Event) :
    statusReads fd (.smbusReadByte fd STATUS :: t) = statusReads fd t + 1 := by
  simp [statusReads, List.count_cons]

theorem waits_read (fd : Int) (r : Nat) (t : List Event) :
    waits (.smbusReadByte fd r :: t) = waits t := by
  simp [waits, List.count_cons]

/-- C7.  After the write of 0xB6 to register 0xE0 has succeeded: if the first 1000
status reads all answer non-zero, `softReset` throws its timeout error after exactly
1000 status reads and 1000 waits of one millisecond; if the first zero answer is the
`k`-th status read, `1 ≤ k ≤ 1000`, it returns after exactly `k` status reads and
`k - 1` waits.  The write is the first event in both cases. -/
theorem softReset_polls_at_most_1000 (env : Env) (s : Session) (w : World)
    (hw : env.writeByte w.trace s.i2c SOFT_RESET_REG SOFT_RESET_COMMAND = true) :
    ((∀ j, j < 1000 → env.StatusBusyAt s.i2c (pollEvents s.i2c j ++
          (.smbusWriteByte s.i2c SOFT_RESET_REG SOFT_RESET_COMMAND :: w.trace))) →
      softReset env s w = (.thrown .softResetFailed,
          ⟨pollEvents s.i2c TIMEOUT_FOR_SOFT_RESET ++
            (.smbusWriteByte s.i2c SOFT_RESET_REG SOFT_RESET_COMMAND :: w.trace)⟩) ∧
      statusReads s.i2c (softReset env s w).2.trace = statusReads s.i2c w.trace + 1000 ∧
      waits (softReset env s w).2.trace = waits w.trace + 1000) ∧
    (∀ k, 1 ≤ k → k ≤ 1000 →
      (∀ j, j < k - 1 → env.StatusBusyAt s.i2c (pollEvents s.i2c j ++
          (.smbusWriteByte s.i2c SOFT_RESET_REG SOFT_RESET_COMMAND :: w.trace))) →
      env.StatusIdleAt s.i2c (pollEvents s.i2c (k - 1) ++
          (.smbusWriteByte s.i2c SOFT_RESET_REG SOFT_RESET_COMMAND :: w.trace)) →
      softReset env s w = (.ok (),
          ⟨.smbusReadByte s.i2c STATUS :: (pollEvents s.i2c (k - 1) ++
            (.smbusWriteByte s.i2c SOFT_RESET_REG SOFT_RESET_COMMAND :: w.trace))⟩) ∧
      statusReads s.i2c (softReset env s w).2.trace = statusReads s.i2c w.trace + k ∧
      waits (softReset env s w).2.trace = waits w.trace + (k - 1)) := by
  constructor
  · intro hbusy
    have h1 : softReset env s w = (.thrown .softResetFailed,
        ⟨pollEvents s.i2c TIMEOUT_FOR_SOFT_RESET ++
          (.smbusWriteByte s.i2c SOFT_RESET_REG SOFT_RESET_COMMAND :: w.trace)⟩) := by
      rw [softReset_of_write env s w hw]
      exact softResetLoop_timeout env s 999 _ (fun j hj => hbusy j (by omega))
    refine ⟨h1, ?_, ?_⟩
    · rw [h1]
      show statusReads s.i2c (pollEvents s.i2c TIMEOUT_FOR_SOFT_RESET ++ _) = _
      rw [statusReads_pollEvents, statusReads_write]
      simp only [TIMEOUT_FOR_SOFT_RESET]
      omega
    · rw [h1]
      show waits (pollEvents s.i2c TIMEOUT_FOR_SOFT_RESET ++ _) = _
      rw [waits_pollEvents, waits_write]
      simp only [TIMEOUT_FOR_SOFT_RESET]
      omega
  · intro k hk1 hk hbusy hidle
    have h1 : softReset env s w = (.ok (),
        ⟨.smbusReadByte s.i2c STATUS :: (pollEvents s.i2c (k - 1) ++
          (.smbusWriteByte s.i2c SOFT_RESET_REG SOFT_RESET_COMMAND :: w.trace))⟩) := by
      rw [softReset_of_write env s w hw]
      exact softResetLoop_success env s 999 (k - 1) _ (by omega) hbusy hidle
    refine ⟨h1, ?_, ?_⟩
    · rw [h1]
      show statusReads s.i2c (_ :: (pollEvents s.i2c (k - 1) ++ _)) = _
      rw [statusReads_read, statusReads_pollEvents, statusReads_write]
      omega
    · rw [h1]
      show waits (_ :: (pollEvents s.i2c (k - 1) ++ _)) = _
      rw [waits_read, waits_pollEvents, waits_write]
      omega

/-- Witness of C7: a stub device that is busy for ever times out after 1000 status
reads, and one that is idle returns after the first. -/
theorem softReset_polls_at_most_1000_witness :
    (softReset (Env.stub (fun _ => 1)) datasheetSession ⟨[]⟩
        = (.thrown .softResetFailed,
            ⟨pollEvents 3 1000 ++ [.smbusWriteByte 3 SOFT_RESET_REG SOFT_RESET_COMMAND]⟩) ∧
      statusReads 3 (softReset (Env.stub (fun _ => 1)) datasheetSession ⟨[]⟩).2.trace
        = statusReads 3 [] + 1000 ∧
      waits (softReset (Env.stub (fun _ => 1)) datasheetSession ⟨[]⟩).2.trace
        = waits [] + 1000) ∧
    softReset (Env.stub (fun _ => 0)) datasheetSession ⟨[]⟩
        = (.ok (), ⟨[.smbusReadByte 3 STATUS,
            .smbusWriteByte 3 SOFT_RESET_REG SOFT_RESET_COMMAND]⟩) :=
  ⟨(softReset_polls_at_most_1000 (Env.stub (fun _ => 1)) datasheetSession ⟨[]⟩ rfl).1
      (fun _ _ => ⟨1, rfl, by decide⟩),
    ((softReset_polls_at_most_1000 (Env.stub (fun _ => 0)) datasheetSession ⟨[]⟩ rfl).2 1
      (Nat.le_refl 1) (by decide) (fun j hj => absurd hj (Nat.not_lt_zero j))
      ⟨0, rfl, by decide⟩).1⟩

theorem getFineTemperature_of_raw (env : Env) (s : Session) (raw : Int) (w w1 : World)
    (h : getRawTemperature env s w = (.ok raw, w1)) :
    getFineTemperature env s w = (.ok (calcTemperature s.calibration raw), w1) := by
  unfold getFineTemperature
  rw [Prog.bind_ok _ _ _ _ _ h]
  rfl

/-- C8 (counterexample).  An Open session on which calibration never ran, on a device
holding the datasheet raw values: `getTemperature` and `getHumidity` return a number
(0, computed from the all-zero coefficients) and throw nothing. -/
theorem uncalibrated_reading_returns_number :
    opened uncalibratedSession = true ∧
    wasCalibration uncalibratedSession = false ∧
    (getTemperature (Env.stub datasheetRegisters) uncalibratedSession ⟨[]⟩).1 = .ok 0 ∧
    (getHumidity (Env.stub datasheetRegisters) uncalibratedSession ⟨[]⟩).1 = .ok 0 ∧
    ¬ (∃ e, (getTemperature (Env.stub datasheetRegisters) uncalibratedSession ⟨[]⟩).1
        = .thrown e) := by
  refine ⟨by decide, by decide, by decide, by decide, ?_⟩
  rintro ⟨e, he⟩
  have h0 : (getTemperature (Env.stub datasheetRegisters) uncalibratedSession ⟨[]⟩).1
      = .ok 0 := by decide
  rw [h0] at he
  exact Outcome.noConfusion he

/-- C8 (amended).  The reading functions make no calibration check.  On a device whose
raw registers do not hold the power-on-reset sentinel, `getTemperature` and
`getHumidity` return the number computed from the stored coefficients on every
session, calibrated or not; and the outcome of `getTemperature`, `getHumidity`,
`getQfePressure` and `getQnhPressure` does not depend on the calibration timestamp. -/
theorem readings_make_no_calibration_check (env : Env) (s : Session) (regs : Nat → Nat)
    (w : World)
    (h : env.HoldsRegisters s.i2c regs) (hb : ∀ r, regs r < 256)
    (hT : ¬ (regs TEMP_MSB = 0x80 ∧ regs TEMP_LSB = 0x00 ∧ regs TEMP_XLSB = 0x00))
    (hH : ¬ (regs HUM_MSB = 0x80 ∧ regs HUM_LSB = 0x00)) :
    (getTemperature env s w).1
      = .ok (centiDegrees (calcTemperature s.calibration
          (((regs TEMP_MSB <<< 12) ||| (regs TEMP_LSB <<< 4) ||| (regs TEMP_XLSB >>> 4) : Nat)
            : Int))) ∧
    (getHumidity env s w).1
      = .ok (calcHumidityFrom s.calibration
          (calcTemperature s.calibration
            (((regs TEMP_MSB <<< 12) ||| (regs TEMP_LSB <<< 4) ||| (regs TEMP_XLSB >>> 4) : Nat)
              : Int))
          (((regs HUM_MSB <<< 8) ||| regs HUM_LSB : Nat) : Int)) ∧
    (∀ t : Int,
      getTemperature env { s with calibration := { s.calibration with updateTime := t } } w
        = getTemperature env s w ∧
      getHumidity env { s with calibration := { s.calibration with updateTime := t } } w
        = getHumidity env s w ∧
      getQfePressure env { s with calibration := { s.calibration with updateTime := t } } w
        = getQfePressure env s w ∧
      ∀ scale,
        getQnhPressure env { s with calibration := { s.calibration with updateTime := t } }
            scale w
          = getQnhPressure env s scale w) := by
  refine ⟨?_, ?_, fun t => ⟨rfl, rfl, rfl, fun _ => rfl⟩⟩
  · have hraw := getRawTemperature_of_holds env s regs h hb w
    rw [if_neg hT] at hraw
    unfold getTemperature
    rw [Prog.bind_ok _ _ _ _ _ hraw]
    rfl
  · have hhum := readRawHumidity_of_holds env s regs h hb w
    rw [if_neg hH] at hhum
    have hraw := getRawTemperature_of_holds env s regs h hb
      ((w.log (.smbusReadByte s.i2c HUM_MSB)).log (.smbusReadByte s.i2c HUM_LSB))
    rw [if_neg hT] at hraw
    unfold getHumidity
    rw [Prog.bind_ok _ _ _ _ _ hhum]
    unfold calcHumidity
    rw [Prog.bind_ok _ _ _ _ _ (getFineTemperature_of_raw env s _ _ _ hraw)]
    rfl

/-- Witness of C8 (amended): the never-calibrated session on the stub device. -/
theorem readings_make_no_calibration_check_witness :
    wasCalibration uncalibratedSession = false ∧
    (getTemperature (Env.stub datasheetRegisters) uncalibratedSession ⟨[]⟩).1
      = .ok (centiDegrees (calcTemperature uncalibratedSession.calibration
          (((datasheetRegisters TEMP_MSB <<< 12) ||| (datasheetRegisters TEMP_LSB <<< 4)
            ||| (datasheetRegisters TEMP_XLSB >>> 4) : Nat) : Int))) :=
  ⟨by decide,
    (readings_make_no_calibration_check (Env.stub datasheetRegisters) uncalibratedSession
      datasheetRegisters ⟨[]⟩ (stub_holds _ _) datasheetRegisters_lt (by decide)
      (by decide)).1⟩

/-! ### Frame lemmas -/

theorem Keeps.onWorld {α β : Type} (f : Session → β) (q : Session → Prog World α) :
    Keeps f (Prog.onWorld q) := fun _ => rfl

theorem Keeps.modifySession {β : Type} (f : Session → β) (g : Session → Session)
    (h : ∀ s, f (g s) = f s) : Keeps f (modifySession g) := fun sw => h sw.1

theorem Keeps.modifyCalibration {β : Type} (f : Session → β) (g : Calibration → Calibration)
    (h : ∀ s c, f { s with calibration := c } = f s) : Keeps f (modifyCalibration g) :=
  fun sw => h sw.1 _

theorem Keeps.bind {α β γ : Type} (f : Session → γ) (p : Prog (Session × World) α)
    (q : α → Prog (Session × World) β) (hp : Keeps f p) (hq : ∀ a, Keeps f (q a)) :
    Keeps f (p >>= q) := by
  intro sw
  show f (Prog.bind p q sw).2.1 = _
  unfold Prog.bind
  have h1 := hp sw
  rcases hps : p sw with ⟨r, sw1⟩
  rw [hps] at h1
  cases r with
  | ok a => exact (hq a sw1).trans h1
  | thrown e => exact h1
  | undefined => exact h1
  | terminated => exact h1

theorem calibration_keeps {β : Type} (f : Session → β) (env : Env)
    (h : ∀ s c, f { s with calibration := c } = f s) : Keeps f (calibration env) := by
  unfold calibration
  repeat first
    | with_reducible apply Keeps.onWorld
    | with_reducible exact Keeps.modifyCalibration f _ h
    | with_reducible apply Keeps.bind
    | with_reducible intro _

theorem setConfig_keeps {β : Type} (f : Session → β) (env : Env) (config : Config)
    (h : ∀ s c, f { s with config := c } = f s) : Keeps f (setConfig env config) := by
  unfold setConfig
  repeat first
    | with_reducible apply Keeps.onWorld
    | with_reducible exact Keeps.modifySession f _ (fun s => h s _)
    | with_reducible apply Keeps.bind
    | with_reducible intro _

theorem open_keeps {β : Type} (f : Session → β) (env : Env)
    (h : ∀ s fd, f { s with i2c := fd } = f s) : Keeps f (Session.open env) := by
  intro sw
  unfold Session.open
  simp only
  split_ifs
  · exact h _ _
  · split
    · exact h _ _
    · split_ifs <;> exact h _ _

theorem close_keeps {β : Type} (f : Session → β) (env : Env)
    (h : ∀ s fd, f { s with i2c := fd } = f s) : Keeps f (close env) := by
  intro sw
  unfold close
  split_ifs
  · rfl
  · exact h _ _
  · rfl

theorem bringUp_keeps {β : Type} (f : Session → β) (env : Env) (config : Config)
    (hi : ∀ s fd, f { s with i2c := fd } = f s)
    (hc : ∀ s c, f { s with calibration := c } = f s)
    (hg : ∀ s c, f { s with config := c } = f s) : Keeps f (bringUp env config) := by
  unfold bringUp
  apply Keeps.bind _ _ _ (open_keeps f env hi)
  intro _
  apply Keeps.bind _ _ _ (Keeps.onWorld f _)
  intro _
  apply Keeps.bind _ _ _ (calibration_keeps f env hc)
  intro _
  exact setConfig_keeps f env config hg

theorem Prog.bind_ok_inv {σ α β : Type} (p : Prog σ α) (f : α → Prog σ β) (s s2 : σ) (b : β)
    (h : (p >>= f) s = (.ok b, s2)) : ∃ a s1, p s = (.ok a, s1) ∧ f a s1 = (.ok b, s2) := by
  change Prog.bind p f s = _ at h
  unfold Prog.bind at h
  rcases hps : p s with ⟨r, s1⟩
  rw [hps] at h
  cases r with
  | ok a => exact ⟨a, s1, rfl, h⟩
  | thrown e => simp at h
  | undefined => simp at h
  | terminated => simp at h

theorem open_ok (env : Env) (sw sw1 : Session × World) (u : Unit)
    (h : Session.open env sw = (.ok u, sw1)) : opened sw1.1 = true := by
  unfold Session.open at h
  simp only at h
  split_ifs at h with hfd
  · simp at h
  · split at h
    · simp at h
    · split_ifs at h
      · simp at h
      · simp only [Prod.mk.injEq, true_and] at h
        subst h
        simp only [opened, CLOSE, decide_eq_true_eq]
        omega

theorem bringUp_ok (env : Env) (config : Config) (sw sw2 : Session × World) (u : Unit)
    (h : bringUp env config sw = (.ok u, sw2)) : opened sw2.1 = true := by
  unfold bringUp at h
  obtain ⟨a, sw1, hopen, hrest⟩ := Prog.bind_ok_inv _ _ _ _ _ h
  have ho := open_ok env sw sw1 a hopen
  have hk : Keeps Session.i2c (do
      Prog.onWorld (fun s => check env s)
      calibration env
      setConfig env config) := by
    apply Keeps.bind _ _ _ (Keeps.onWorld Session.i2c _)
    intro _
    apply Keeps.bind _ _ _ (calibration_keeps Session.i2c env (fun _ _ => rfl))
    intro _
    exact setConfig_keeps Session.i2c env config (fun _ _ => rfl)
  have hk1 := hk sw1
  rw [hrest] at hk1
  simp only [opened, decide_eq_true_eq] at ho ⊢
  rw [hk1]
  exact ho

/-! ### The registry -/

theorem lookup_storeObject (id : Nat) (o : Object) (heap : List (Nat × Object)) :
    (storeObject id o heap).lookup id = some o := by
  simp [storeObject, List.lookup]

theorem lookup_filter_ne (id : Nat) (heap : List (Nat × Object)) :
    (heap.filter (fun e => e.1 ≠ id)).lookup id = none := by
  induction heap with
  | nil => rfl
  | cons e es ih =>
    obtain ⟨k, v⟩ := e
    by_cases h : k = id
    · rw [List.filter_cons_of_neg (by simpa using h)]
      exact ih
    · rw [List.filter_cons_of_pos (by simpa using h)]
      have h2 : (id == k) = false := by
        rw [beq_eq_false_iff_ne]
        exact fun h3 => h h3.symm
      rw [List.lookup_cons, h2]
      exact ih

/-- Re-acquisition of a path whose session is live and Open: the same object is
returned, only `_address` of the session and the owner count change, and nothing is
done to the world. -/
theorem instance_of_open (env : Env) (p : Process) (file : String) (a : Nat) (c : Config)
    (id : Nat) (o : Object)
    (hi : p.interfaces.lookup file = some id) (hh : p.heap.lookup id = some o)
    (ho : opened o.session = true) :
    Process.instance env file a c p =
      (.ok id,
        { p with heap := (storeObject id
            { session := { o.session with address := some (toUInt16 a) },
              strong := o.strong + 1 }
            (storeObject id { o with strong := o.strong + 1 } p.heap)) }) := by
  have ho2 : opened { o.session with address := some (toUInt16 a) } = true := ho
  simp only [Process.instance, Process.findOrCreate, hi, hh, Process.activate, ho2,
    Bool.not_true, Bool.false_eq_true, if_false]

theorem instance_ok_post (env : Env) (p p1 : Process) (file : String) (a : Nat) (c : Config)
    (r : Nat) (h : Process.instance env file a c p = (.ok r, p1)) :
    p1.interfaces.lookup file = some r ∧
      ∃ o, p1.heap.lookup r = some o ∧ opened o.session = true := by
  unfold Process.instance at h
  rcases hf : Process.findOrCreate file p with _ | ⟨id, o, p0⟩
  · rw [hf] at h
    simp at h
  · rw [hf] at h
    simp only at h
    have hreg : p0.interfaces.lookup file = some id := by
      unfold Process.findOrCreate at hf
      split at hf
      · simp only [Option.some.injEq, Prod.mk.injEq] at hf
        obtain ⟨h1, _, h3⟩ := hf
        rw [← h3, ← h1]
        simp [List.lookup]
      · rename_i id0 hl
        split at hf
        · simp at hf
        · simp only [Option.some.injEq, Prod.mk.injEq] at hf
          obtain ⟨h1, _, h3⟩ := hf
          rw [← h3, ← h1]
          exact hl
    unfold Process.activate at h
    simp only at h
    split_ifs at h with hop
    · rcases hb : bringUp env c ({ o.session with address := some (toUInt16 a) }, p0.world)
        with ⟨res, s2, w2⟩
      rw [hb] at h
      cases res with
      | ok u =>
        simp only [Prod.mk.injEq, Outcome.ok.injEq] at h
        obtain ⟨h1, h2⟩ := h
        subst h1
        subst h2
        refine ⟨hreg, ⟨{ o with session := s2 }, lookup_storeObject _ _ _, ?_⟩⟩
        exact bringUp_ok env c _ (s2, w2) u hb
      | thrown e =>
        simp only at h
        split at h <;> simp at h
      | undefined => simp at h
      | terminated => simp at h
    · simp only [Prod.mk.injEq, Outcome.ok.injEq] at h
      obtain ⟨h1, h2⟩ := h
      subst h1
      subst h2
      refine ⟨hreg, ⟨_, lookup_storeObject _ _ _, ?_⟩⟩
      simpa using hop

/-- Directly after a successful `instance(file, a1, c1)` a second `instance` on the
resulting process returns the same object, counts one more owner of it, and leaves
the world untouched. -/
theorem instance_after_success (env : Env) (p p1 : Process) (file : String)
    (a1 a2 : Nat) (c1 c2 : Config) (r : Nat)
    (h1 : Process.instance env file a1 c1 p = (.ok r, p1)) :
    (Process.instance env file a2 c2 p1).1 = .ok r ∧
    (Process.instance env file a2 c2 p1).2.world = p1.world ∧
    (Process.instance env file a2 c2 p1).2.interfaces = p1.interfaces ∧
    ∃ o o2, p1.object r = some o ∧
      (Process.instance env file a2 c2 p1).2.object r = some o2 ∧
      o2.strong = o.strong + 1 := by
  obtain ⟨hreg, o, hheap, hopen⟩ := instance_ok_post env p p1 file a1 c1 r h1
  rw [instance_of_open env p1 file a2 c2 r o hreg hheap hopen]
  exact ⟨rfl, rfl, rfl, o, _, hheap, lookup_storeObject _ _ _, rfl⟩

/-- On the idle stub device the first acquisition of "/dev/i2c-1" followed by `close`
on the session leaves `reclosedProcess`. -/
theorem close_after_acquisition :
    Process.close (Env.stub idleRegisters) 0
      (Process.instance (Env.stub idleRegisters) "/dev/i2c-1" 0x77 DEFAULT_CONFIGURATION
        Process.initial).2 = (.ok (), reclosedProcess) := rfl

/-- C9 (counterexample).  `instance` succeeds on the idle stub device (20 calls made)
and its reference is held; the public `close` is then called on the session (one more
call, the object keeps its single owner); a second `instance` for the same path
returns the same object but runs open, check, calibration and configuration again:
the history grows from 21 to 41 calls and starts with a second `::open`. -/
theorem instance_after_close_reopens :
    (Process.instance (Env.stub idleRegisters) "/dev/i2c-1" 0x77 DEFAULT_CONFIGURATION
      Process.initial).1 = .ok 0 ∧
    (Process.close (Env.stub idleRegisters) 0
      (Process.instance (Env.stub idleRegisters) "/dev/i2c-1" 0x77 DEFAULT_CONFIGURATION
        Process.initial).2).1 = .ok () ∧
    ((Process.close (Env.stub idleRegisters) 0
      (Process.instance (Env.stub idleRegisters) "/dev/i2c-1" 0x77 DEFAULT_CONFIGURATION
        Process.initial).2).2.object 0).map (fun o => (o.strong, opened o.session))
      = some (1, false) ∧
    (Process.close (Env.stub idleRegisters) 0
      (Process.instance (Env.stub idleRegisters) "/dev/i2c-1" 0x77 DEFAULT_CONFIGURATION
        Process.initial).2).2.world.trace.length = 21 ∧
    (Process.instance (Env.stub idleRegisters) "/dev/i2c-1" 0x77 DEFAULT_CONFIGURATION
      (Process.close (Env.stub idleRegisters) 0
        (Process.instance (Env.stub idleRegisters) "/dev/i2c-1" 0x77 DEFAULT_CONFIGURATION
          Process.initial).2).2).1 = .ok 0 ∧
    (Process.instance (Env.stub idleRegisters) "/dev/i2c-1" 0x77 DEFAULT_CONFIGURATION
      (Process.close (Env.stub idleRegisters) 0
        (Process.instance (Env.stub idleRegisters) "/dev/i2c-1" 0x77 DEFAULT_CONFIGURATION
          Process.initial).2).2).2.world.trace.length = 41 ∧
    ((Process.instance (Env.stub idleRegisters) "/dev/i2c-1" 0x77 DEFAULT_CONFIGURATION
      (Process.close (Env.stub idleRegisters) 0
        (Process.instance (Env.stub idleRegisters) "/dev/i2c-1" 0x77 DEFAULT_CONFIGURATION
          Process.initial).2).2).2.world.trace.reverse.drop 21).take 2
      = [.osOpen "/dev/i2c-1", .ioctlSlave 3 0x77] := by
  rw [close_after_acquisition]
  refine ⟨by decide, by decide, by decide, by decide, by decide, by decide, by decide⟩

/-- C9 (amended).  When the session registered for a path is live and Open, `instance`
for that path returns the same object, counts one more owner of it, changes nothing
of the session but `_address`, and leaves the world untouched: no call to the
operating system or the bus is made, whatever the address and configuration passed.
A process is in that state directly after a successful `instance` for the path. -/
theorem instance_on_open_session (env : Env) (p : Process) (file : String) (a : Nat)
    (c : Config) (id : Nat) (o : Object)
    (hi : p.interfaces.lookup file = some id) (hh : p.object id = some o)
    (ho : opened o.session = true) :
    ((Process.instance env file a c p).1 = .ok id ∧
      (Process.instance env file a c p).2.world = p.world ∧
      (Process.instance env file a c p).2.interfaces = p.interfaces ∧
      ∃ o2, (Process.instance env file a c p).2.object id = some o2 ∧
        o2.strong = o.strong + 1 ∧
        o2.session = { o.session with address := some (toUInt16 a) }) ∧
    (∀ (p0 p1 : Process) (a1 : Nat) (c1 : Config) (r : Nat),
      Process.instance env file a1 c1 p0 = (.ok r, p1) →
        (p1.interfaces.lookup file = some r ∧
          ∃ o1, p1.object r = some o1 ∧ opened o1.session = true) ∧
        (Process.instance env file a c p1).1 = .ok r ∧
        (Process.instance env file a c p1).2.world = p1.world) := by
  constructor
  · rw [instance_of_open env p file a c id o hi hh ho]
    exact ⟨rfl, rfl, rfl, _, lookup_storeObject _ _ _, rfl, rfl⟩
  · intro p0 p1 a1 c1 r h1
    have h2 := instance_after_success env p0 p1 file a1 a c1 c r h1
    exact ⟨instance_ok_post env p0 p1 file a1 c1 r h1, h2.1, h2.2.1⟩

/-- Witness of C9 (amended): the process left by the first acquisition on the idle
stub device, acquired again with another address. -/
theorem instance_on_open_session_witness :
    (Process.instance (Env.stub idleRegisters) "/dev/i2c-1" 0x76 DEFAULT_CONFIGURATION
      (Process.instance (Env.stub idleRegisters) "/dev/i2c-1" 0x77 DEFAULT_CONFIGURATION
        Process.initial).2).1 = .ok 0 ∧
    (Process.instance (Env.stub idleRegisters) "/dev/i2c-1" 0x76 DEFAULT_CONFIGURATION
      (Process.instance (Env.stub idleRegisters) "/dev/i2c-1" 0x77 DEFAULT_CONFIGURATION
        Process.initial).2).2.world
      = (Process.instance (Env.stub idleRegisters) "/dev/i2c-1" 0x77 DEFAULT_CONFIGURATION
        Process.initial).2.world :=
  have h := (instance_on_open_session (Env.stub idleRegisters)
    (Process.instance (Env.stub idleRegisters) "/dev/i2c-1" 0x77 DEFAULT_CONFIGURATION
      Process.initial).2 "/dev/i2c-1" 0x76 DEFAULT_CONFIGURATION 0
    { session := acquiredSession, strong := 1 } (by decide) rfl (by decide)).1
  ⟨h.1, h.2.1⟩

theorem release_address (env : Env) (id : Nat) (p : Process) (x : Option Nat)
    (h : ∀ o, p.object id = some o → o.session.address = x) :
    ∀ o2, (release env id p).2.object id = some o2 → o2.session.address = x := by
  intro o2 h2
  unfold release at h2
  rcases hl : p.heap.lookup id with _ | o
  · rw [hl] at h2
    exact h o2 h2
  · rw [hl] at h2
    have hx := h o hl
    simp only at h2
    split_ifs at h2
    · have hk := close_keeps Session.address env (fun _ _ => rfl) (o.session, p.world)
      rcases hc : close env (o.session, p.world) with ⟨r, s1, w1⟩
      rw [hc] at h2 hk
      simp only at hk
      cases r with
      | ok u =>
        simp only [Process.object, lookup_filter_ne] at h2
        exact absurd h2 (by simp)
      | thrown e =>
        simp only [Process.object, lookup_storeObject, Option.some.injEq] at h2
        rw [← h2]
        exact hk.trans hx
      | undefined =>
        simp only [Process.object, lookup_storeObject, Option.some.injEq] at h2
        rw [← h2]
        exact hk.trans hx
      | terminated =>
        simp only [Process.object, lookup_storeObject, Option.some.injEq] at h2
        rw [← h2]
        exact hk.trans hx
    · simp only [Process.object, lookup_storeObject, Option.some.injEq] at h2
      rw [← h2]
      exact hx

theorem activate_address (env : Env) (id : Nat) (o : Object) (a : Nat) (c : Config)
    (p1 : Process) :
    ∀ o2, (Process.activate env id o a c p1).2.object id = some o2 →
      o2.session.address = some (toUInt16 a) := by
  intro o2 h2
  unfold Process.activate at h2
  simp only at h2
  split_ifs at h2 with hop
  · have hk := bringUp_keeps Session.address env c (fun _ _ => rfl) (fun _ _ => rfl)
      (fun _ _ => rfl) ({ o.session with address := some (toUInt16 a) }, p1.world)
    rcases hb : bringUp env c ({ o.session with address := some (toUInt16 a) }, p1.world)
      with ⟨res, s2, w2⟩
    rw [hb] at h2 hk
    simp only at hk
    cases res with
    | ok u =>
      simp only [Process.object, lookup_storeObject, Option.some.injEq] at h2
      rw [← h2]
      exact hk
    | thrown e =>
      simp only at h2
      have hrel := release_address env id
        { p1 with heap := storeObject id { o with session := s2 } p1.heap, world := w2 }
        (some (toUInt16 a))
        (by
          intro o3 h3
          simp only [Process.object, lookup_storeObject, Option.some.injEq] at h3
          rw [← h3]
          exact hk)
      rcases hr : release env id
        { p1 with heap := storeObject id { o with session := s2 } p1.heap, world := w2 }
        with ⟨rr, p3⟩
      rw [hr] at h2 hrel
      cases rr <;> exact hrel o2 h2
    | undefined =>
      simp only [Process.object, lookup_storeObject, Option.some.injEq] at h2
      rw [← h2]
      exact hk
    | terminated =>
      simp only [Process.object, lookup_storeObject, Option.some.injEq] at h2
      rw [← h2]
      exact hk
  · simp only [Process.object, lookup_storeObject, Option.some.injEq] at h2
    rw [← h2]

/-- C10 (counterexample).  A session acquired with address 0x77 and acquired again,
while Open, with address 0x76 stores 0x76 afterwards: the stored address does not
keep its earlier value. -/
theorem instance_overwrites_address :
    ((Process.instance (Env.stub idleRegisters) "/dev/i2c-1" 0x77 DEFAULT_CONFIGURATION
        Process.initial).2.object 0).map (fun o => (opened o.session, o.session.address))
      = some (true, some 0x77) ∧
    ((Process.instance (Env.stub idleRegisters) "/dev/i2c-1" 0x76 DEFAULT_CONFIGURATION
        (Process.instance (Env.stub idleRegisters) "/dev/i2c-1" 0x77 DEFAULT_CONFIGURATION
          Process.initial).2).2.object 0).map (fun o => o.session.address)
      = some (some 0x76) := by
  refine ⟨by decide, by decide⟩

/-- C10 (amended).  On a path that already has a live session, `instance` stores its
own address argument (as a `uint16_t`) in the session; when the session is already
Open the call returns that session, does nothing to the world, and changes no other
member: `_config`, `_calibration`, the handle and the device path are as before. -/
theorem instance_stores_latest_address (env : Env) (p : Process) (file : String) (a : Nat)
    (c : Config) (id : Nat) (o : Object)
    (hi : p.interfaces.lookup file = some id) (hh : p.object id = some o) :
    (∀ o2, (Process.instance env file a c p).2.object id = some o2 →
      o2.session.address = some (toUInt16 a)) ∧
    (opened o.session = true →
      (Process.instance env file a c p).1 = .ok id ∧
      (Process.instance env file a c p).2.world = p.world ∧
      ∃ o2, (Process.instance env file a c p).2.object id = some o2 ∧
        o2.session = { o.session with address := some (toUInt16 a) }) := by
  constructor
  · have hf : Process.findOrCreate file p
        = some (id, { o with strong := o.strong + 1 },
            { p with heap := storeObject id { o with strong := o.strong + 1 } p.heap }) := by
      unfold Process.object at hh
      simp only [Process.findOrCreate, hi, hh]
    unfold Process.instance
    rw [hf]
    exact activate_address env id _ a c _
  · intro hopen
    rw [instance_of_open env p file a c id o hi hh hopen]
    exact ⟨rfl, rfl, _, lookup_storeObject _ _ _, rfl⟩

/-- Witness of C10 (amended): the Open session of the counterexample. -/
theorem instance_stores_latest_address_witness :
    (Process.instance (Env.stub idleRegisters) "/dev/i2c-1" 0x76 DEFAULT_CONFIGURATION
      (Process.instance (Env.stub idleRegisters) "/dev/i2c-1" 0x77 DEFAULT_CONFIGURATION
        Process.initial).2).1 = .ok 0 ∧
    (Process.instance (Env.stub idleRegisters) "/dev/i2c-1" 0x76 DEFAULT_CONFIGURATION
      (Process.instance (Env.stub idleRegisters) "/dev/i2c-1" 0x77 DEFAULT_CONFIGURATION
        Process.initial).2).2.world
      = (Process.instance (Env.stub idleRegisters) "/dev/i2c-1" 0x77 DEFAULT_CONFIGURATION
        Process.initial).2.world ∧
    ∃ o2, (Process.instance (Env.stub idleRegisters) "/dev/i2c-1" 0x76 DEFAULT_CONFIGURATION
        (Process.instance (Env.stub idleRegisters) "/dev/i2c-1" 0x77 DEFAULT_CONFIGURATION
          Process.initial).2).2.object 0 = some o2 ∧
      o2.session = { acquiredSession with address := some (toUInt16 0x76) } :=
  (instance_stores_latest_address (Env.stub idleRegisters)
    (Process.instance (Env.stub idleRegisters) "/dev/i2c-1" 0x77 DEFAULT_CONFIGURATION
      Process.initial).2 "/dev/i2c-1" 0x76 DEFAULT_CONFIGURATION 0
    { session := acquiredSession, strong := 1 }
    (by decide) rfl).2 (by decide)

/-! ### Decoding of the packed humidity coefficients -/


theorem word16_eq (hi lo : Nat) (hlo : lo < 256) : word16 hi lo = 256 * hi + lo := by
  unfold word16
  rw [Nat.shiftLeft_eq, Nat.mul_comm hi]
  exact (Nat.mul_add_lt_is_or (i := 8) hlo hi).symm

theorem and_shiftRight (a b : Nat) (k : Nat) :
    (a &&& b) >>> k = (a >>> k) &&& (b >>> k) := by
  induction k with
  | zero => rfl
  | succ k ih =>
    rw [Nat.shiftRight_succ, Nat.shiftRight_succ, Nat.shiftRight_succ, ih, Nat.and_div_two]

theorem decodeH4_eq (e5 e4 : Nat) (h5 : e5 < 256) (h4 : e4 < 256) :
    decodeH4 e5 e4 = ((16 * e4 + e5 % 16 : Nat) : Int) := by
  unfold decodeH4
  simp only
  rw [word16_eq e5 e4 h4]
  have hw : toUInt16 (256 * e5 + e4) = 256 * e5 + e4 := by
    unfold toUInt16
    omega
  rw [hw]
  have h1 : (256 * e5 + e4) &&& 0x00FF = e4 := by
    have := Nat.and_pow_two_sub_one_eq_mod (256 * e5 + e4) 8
    simp only [Nat.reducePow, Nat.reduceSub] at this
    rw [this]
    omega
  have h2 : ((256 * e5 + e4) &&& 0x0F00) >>> 8 = e5 % 16 := by
    rw [and_shiftRight]
    have := Nat.and_pow_two_sub_one_eq_mod ((256 * e5 + e4) >>> 8) 4
    simp only [Nat.reducePow, Nat.reduceSub] at this
    have h3 : (0x0F00 : Nat) >>> 8 = 15 := by decide
    rw [h3, this, Nat.shiftRight_eq_div_pow]
    omega
  rw [h1, h2, Nat.shiftLeft_eq, Nat.mul_comm e4]
  have h4' : e5 % 16 < 2 ^ 4 := by omega
  rw [← Nat.mul_add_lt_is_or (i := 4) h4' e4]
  unfold toInt16
  omega

theorem decodeH5_eq (e6 e5 : Nat) (h6 : e6 < 256) (h5 : e5 < 256) :
    decodeH5 e6 e5 = ((16 * e6 + e5 / 16 : Nat) : Int) := by
  unfold decodeH5
  simp only
  rw [word16_eq e6 e5 h5]
  have hw : toUInt16 (256 * e6 + e5) = 256 * e6 + e5 := by
    unfold toUInt16
    omega
  rw [hw, Nat.shiftRight_eq_div_pow]
  unfold toInt16
  omega

/-- What the decoding of `calibration` returns on the bytes that encode values `H4` and
`H5` in 12-bit two's complement: the residue modulo 4096, that is, for a signed 12-bit
value, the value itself when it is non-negative and the value plus 4096 when it is
negative. -/
theorem decode_encodeH4H5 (H4 H5 : Int) :
    decodeH4 (encodeH4H5 H4 H5).2.1 (encodeH4H5 H4 H5).1 = H4 % 4096 ∧
    decodeH5 (encodeH4H5 H4 H5).2.2 (encodeH4H5 H4 H5).2.1 = H5 % 4096 := by
  unfold encodeH4H5
  simp only
  have hu4 : (H4 % 4096).toNat < 4096 := by omega
  have hu5 : (H5 % 4096).toNat < 4096 := by omega
  have e4 : ((H4 % 4096).toNat : Int) = H4 % 4096 := by omega
  have e5 : ((H5 % 4096).toNat : Int) = H5 % 4096 := by omega
  rw [decodeH4_eq _ _ (by omega) (by omega), decodeH5_eq _ _ (by omega) (by omega)]
  constructor
  · rw [← e4]
    norm_cast
    omega
  · rw [← e5]
    norm_cast
    omega

/-! ### Block reads -/

/-- C11.  When the device reports `n` returned bytes for a block read into a buffer of
`length` bytes: if `n > length`, `readBlockData` throws the range error before it
copies anything (no buffer is produced); otherwise it returns `n` and the buffer
holds the first `n` returned bytes followed by the old bytes `n .. length - 1`. -/
theorem readBlockData_bound_check (env : Env) (s : Session) (registers length n : Nat)
    (values : List Nat) (block : Nat → Nat) (w : World)
    (hresp : env.readBlock w.trace s.i2c registers (toUInt8 length) = some (n, block))
    (hn : n ≤ 255) (hlen : values.length = length) :
    (length < n →
      readBlockData env s registers values length w
        = (.thrown .outOfRange,
            w.log (.smbusReadBlock s.i2c registers (toUInt8 length)))) ∧
    (n ≤ length →
      readBlockData env s registers values length w
        = (.ok (n, (List.range n).map (fun i => toUInt8 (block i)) ++ values.drop n),
            w.log (.smbusReadBlock s.i2c registers (toUInt8 length))) ∧
      ((List.range n).map (fun i => toUInt8 (block i)) ++ values.drop n).length = length ∧
      (∀ i, i < n →
        ((List.range n).map (fun i => toUInt8 (block i)) ++ values.drop n).getD i 0
          = toUInt8 (block i)) ∧
      (∀ i, n ≤ i →
        ((List.range n).map (fun i => toUInt8 (block i)) ++ values.drop n).getD i 0
          = values.getD i 0)) := by
  have hn8 : toUInt8 n = n := by
    unfold toUInt8
    omega
  constructor
  · intro hlt
    unfold readBlockData
    rw [hresp]
    simp only [hn8]
    rw [if_pos hlt]
  · intro hle
    refine ⟨?_, ?_, ?_, ?_⟩
    · unfold readBlockData
      rw [hresp]
      simp only [hn8]
      rw [if_neg (by omega)]
    · simp only [List.length_append, List.length_map, List.length_range, List.length_drop]
      omega
    · intro i hi
      rw [List.getD_eq_getElem?_getD, List.getElem?_append_left (by simpa using hi)]
      simp [hi]
    · intro i hi
      rw [List.getD_eq_getElem?_getD, List.getD_eq_getElem?_getD,
        List.getElem?_append_right (by simpa using hi)]
      simp only [List.length_map, List.length_range, List.getElem?_drop]
      congr 2
      omega

/-- Witness of C11: a device that reports 3 bytes for a buffer of 4, and one that
reports 5. -/
theorem readBlockData_bound_check_witness :
    readBlockData (Env.stubBlock 3) datasheetSession 0x88 [9, 9, 9, 9] 4 ⟨[]⟩
      = (.ok (3, [1, 2, 3, 9]), ⟨[.smbusReadBlock 3 0x88 4]⟩) ∧
    readBlockData (Env.stubBlock 5) datasheetSession 0x88 [9, 9, 9, 9] 4 ⟨[]⟩
      = (.thrown .outOfRange, ⟨[.smbusReadBlock 3 0x88 4]⟩) :=
  ⟨((readBlockData_bound_check (Env.stubBlock 3) datasheetSession 0x88 4 3 [9, 9, 9, 9]
      (fun i => i + 1) ⟨[]⟩ rfl (by decide) rfl).2 (by decide)).1,
    (readBlockData_bound_check (Env.stubBlock 5) datasheetSession 0x88 4 5 [9, 9, 9, 9]
      (fun i => i + 1) ⟨[]⟩ rfl (by decide) rfl).1 (by decide)⟩

/-! ### Configuration -/

theorem writedByteData_ok (env : Env) (s : Session) (h : env.WritesSucceed s.i2c)
    (reg value : Nat) (w : World) :
    writedByteData env s reg value w = (.ok (), w.log (.smbusWriteByte s.i2c reg value)) := by
  unfold writedByteData
  rw [if_pos (h _ _ _)]

theorem modifySession_apply (f : Session → Session) (s : Session) (w : World) :
    modifySession f (s, w) = (.ok (), (f s, w)) := rfl

theorem onWorld_apply {α : Type} (q : Session → Prog World α) (s : Session) (w : World) :
    Prog.onWorld q (s, w) = ((q s w).1, (s, (q s w).2)) := rfl

/-- C12.  When the writes are accepted, `setConfig` stores the configuration and makes
exactly three register writes, in this order: 0xF5 with `(standby << 5) | (filter << 2)`,
0xF2 with `oversamplingHumidity`, 0xF4 with `(oversamplingTemperature << 5) |
(oversamplingPressure << 2) | mode`, followed by the wait of 250 ms.  The three bytes
fit in 8 bits and the configuration is recovered from them; for
`DEFAULT_CONFIGURATION` they are 0x80, 0x03, 0x6F. -/
theorem setConfig_writes (env : Env) (s : Session) (w : World) (config : Config)
    (hw : env.WritesSucceed s.i2c) :
    setConfig env config (s, w)
      = (.ok (),
          ({ s with config := some config },
           ⟨.sleepMs 250
            :: .smbusWriteByte s.i2c 0xF4 ((config.oversamplingTemperature.val <<< 5)
                ||| (config.oversamplingPressure.val <<< 2) ||| config.mode.val)
            :: .smbusWriteByte s.i2c 0xF2 config.oversamplingHumidity.val
            :: .smbusWriteByte s.i2c 0xF5
                ((config.standby.val <<< 5) ||| (config.filter.val <<< 2))
            :: w.trace⟩)) ∧
    ((config.standby.val <<< 5) ||| (config.filter.val <<< 2) < 256 ∧
      config.oversamplingHumidity.val < 256 ∧
      (config.oversamplingTemperature.val <<< 5) ||| (config.oversamplingPressure.val <<< 2)
        ||| config.mode.val < 256) ∧
    (((config.standby.val <<< 5) ||| (config.filter.val <<< 2)) >>> 5 = config.standby.val ∧
      ((((config.standby.val <<< 5) ||| (config.filter.val <<< 2)) >>> 2) &&& 7)
        = config.filter.val ∧
      ((config.oversamplingTemperature.val <<< 5) ||| (config.oversamplingPressure.val <<< 2)
        ||| config.mode.val) >>> 5 = config.oversamplingTemperature.val ∧
      ((((config.oversamplingTemperature.val <<< 5) ||| (config.oversamplingPressure.val <<< 2)
        ||| config.mode.val) >>> 2) &&& 7) = config.oversamplingPressure.val ∧
      (((config.oversamplingTemperature.val <<< 5) ||| (config.oversamplingPressure.val <<< 2)
        ||| config.mode.val) &&& 3) = config.mode.val) ∧
    ((DEFAULT_CONFIGURATION.standby.val <<< 5) ||| (DEFAULT_CONFIGURATION.filter.val <<< 2)
        = 0x80 ∧
      DEFAULT_CONFIGURATION.oversamplingHumidity.val = 0x03 ∧
      (DEFAULT_CONFIGURATION.oversamplingTemperature.val <<< 5)
        ||| (DEFAULT_CONFIGURATION.oversamplingPressure.val <<< 2)
        ||| DEFAULT_CONFIGURATION.mode.val = 0x6F) := by
  obtain ⟨mode, filter, op, ot, oh, standby⟩ := config
  dsimp only
  have hb0 : (standby.val <<< 5) ||| (filter.val <<< 2) < 256 := by
    cases standby <;> cases filter <;> decide
  have hb1 : oh.val < 256 := by cases oh <;> decide
  have hb2 : (ot.val <<< 5) ||| (op.val <<< 2) ||| mode.val < 256 := by
    cases ot <;> cases op <;> cases mode <;> decide
  refine ⟨?_, ⟨hb0, hb1, hb2⟩, ⟨?_, ?_, ?_, ?_, ?_⟩, by decide, by decide, by decide⟩
  · have e0 : toUInt8 ((standby.val <<< 5) ||| (filter.val <<< 2))
        = (standby.val <<< 5) ||| (filter.val <<< 2) := Nat.mod_eq_of_lt hb0
    have e2 : toUInt8 ((ot.val <<< 5) ||| (op.val <<< 2) ||| mode.val)
        = (ot.val <<< 5) ||| (op.val <<< 2) ||| mode.val := Nat.mod_eq_of_lt hb2
    unfold setConfig
    simp only [e0, e2]
    rw [Prog.bind_ok _ _ _ _ _ (modifySession_apply _ s w)]
    have hw1 : env.WritesSucceed
        ({ s with config := some ⟨mode, filter, op, ot, oh, standby⟩ } : Session).i2c := hw
    rw [Prog.bind_ok _ _ _ _ () (by rw [onWorld_apply, writedByteData_ok env _ hw1])]
    rw [Prog.bind_ok _ _ _ _ () (by rw [onWorld_apply, writedByteData_ok env _ hw1])]
    rw [Prog.bind_ok _ _ _ _ () (by rw [onWorld_apply, writedByteData_ok env _ hw1])]
    rfl
  · cases standby <;> cases filter <;> decide
  · cases standby <;> cases filter <;> decide
  · cases ot <;> cases op <;> cases mode <;> decide
  · cases ot <;> cases op <;> cases mode <;> decide
  · cases ot <;> cases op <;> cases mode <;> decide

theorem stub_writes (regs : Nat → Nat) (fd : Int) : (Env.stub regs).WritesSucceed fd :=
  fun _ _ _ => rfl

/-- Witness of C12: the default configuration written to the idle stub device. -/
theorem setConfig_writes_witness :
    setConfig (Env.stub idleRegisters) DEFAULT_CONFIGURATION (closedSession, ⟨[]⟩)
      = (.ok (),
          ({ closedSession with config := some DEFAULT_CONFIGURATION },
           ⟨[.sleepMs 250, .smbusWriteByte (-1) 0xF4 0x6F, .smbusWriteByte (-1) 0xF2 0x03,
             .smbusWriteByte (-1) 0xF5 0x80]⟩)) :=
  (setConfig_writes (Env.stub idleRegisters) closedSession ⟨[]⟩ DEFAULT_CONFIGURATION
    (stub_writes _ _)).1

/-! ### Opening and closing -/

/-- C15.  On an Open session whose OS close fails, `close` throws and leaves the
session as it was, so `opened` is still true; when the OS close succeeds `opened` is
false afterwards; on a Closed session `close` makes no call and returns normally. -/
theorem close_atomic (env : Env) (s : Session) (w : World) :
    (opened s = true → env.osClose w.trace s.i2c < 0 →
      close env (s, w) = (.thrown .cantClose, (s, w.log (.osClose s.i2c))) ∧
      opened (close env (s, w)).2.1 = true ∧ (close env (s, w)).2.1.i2c = s.i2c) ∧
    (opened s = true → ¬ env.osClose w.trace s.i2c < 0 →
      close env (s, w) = (.ok (), ({ s with i2c := CLOSE }, w.log (.osClose s.i2c))) ∧
      opened (close env (s, w)).2.1 = false) ∧
    (opened s = false → close env (s, w) = (.ok (), (s, w))) := by
  refine ⟨?_, ?_, ?_⟩
  · intro ho hf
    have h : close env (s, w) = (.thrown .cantClose, (s, w.log (.osClose s.i2c))) := by
      unfold close
      rw [if_pos ho, if_pos hf]
    rw [h]
    exact ⟨rfl, ho, rfl⟩
  · intro ho hf
    have h : close env (s, w)
        = (.ok (), ({ s with i2c := CLOSE }, w.log (.osClose s.i2c))) := by
      unfold close
      rw [if_pos ho, if_neg hf]
    rw [h]
    exact ⟨rfl, by simp [opened]⟩
  · intro ho
    unfold close
    rw [if_neg (by simp [ho])]

/-- Witness of C15: the Open datasheet session on a device whose close fails, on one
whose close succeeds, and a Closed session. -/
theorem close_atomic_witness :
    (close Env.stubCloseFails (datasheetSession, ⟨[]⟩)
        = (.thrown .cantClose, (datasheetSession, ⟨[.osClose 3]⟩)) ∧
      opened (close Env.stubCloseFails (datasheetSession, ⟨[]⟩)).2.1 = true ∧
      (close Env.stubCloseFails (datasheetSession, ⟨[]⟩)).2.1.i2c = 3) ∧
    opened (close (Env.stub idleRegisters) (datasheetSession, ⟨[]⟩)).2.1 = false ∧
    close Env.stubCloseFails (closedSession, ⟨[]⟩) = (.ok (), (closedSession, ⟨[]⟩)) :=
  ⟨(close_atomic Env.stubCloseFails datasheetSession ⟨[]⟩).1 (by decide) (by decide),
    ((close_atomic (Env.stub idleRegisters) datasheetSession ⟨[]⟩).2.1 (by decide)
      (by decide)).2,
    (close_atomic Env.stubCloseFails closedSession ⟨[]⟩).2.2 (by decide)⟩

/-- C20 (counterexample).  A Closed session on a device where `::open` succeeds and
the address bind fails: `open` throws and `opened` is true afterwards, the descriptor
3 being kept in `_i2c`. -/
theorem open_bind_failure_leaves_open :
    opened closedSession = false ∧
    (Session.open Env.stubBindFails (closedSession, ⟨[]⟩)).1 = .thrown .setAddress ∧
    opened (Session.open Env.stubBindFails (closedSession, ⟨[]⟩)).2.1 = true ∧
    (Session.open Env.stubBindFails (closedSession, ⟨[]⟩)).2.1.i2c = 3 := by
  refine ⟨by decide, by decide, by decide, by decide⟩

/-- C20 (amended).  When `open` throws because the OS open fails, `_i2c` holds the
negative return value and `opened` is false afterwards; when it throws because the
address bind fails, `_i2c` holds the descriptor just opened and `opened` is true. -/
theorem open_failure_handle (env : Env) (s : Session) (w : World) (a : Nat)
    (ha : s.address = some a) :
    (env.osOpen w.trace s.device < 0 →
      (Session.open env (s, w)).1 = .thrown .cantOpen ∧
      opened (Session.open env (s, w)).2.1 = false ∧
      (Session.open env (s, w)).2.2 = w.log (.osOpen s.device)) ∧
    (¬ env.osOpen w.trace s.device < 0 →
      env.ioctlSlave (.osOpen s.device :: w.trace) (env.osOpen w.trace s.device) a < 0 →
      (Session.open env (s, w)).1 = .thrown .setAddress ∧
      (Session.open env (s, w)).2.1.i2c = env.osOpen w.trace s.device ∧
      opened (Session.open env (s, w)).2.1 = true) ∧
    (∀ e, (Session.open env (s, w)).1 = .thrown e →
      (opened (Session.open env (s, w)).2.1 = false ↔ e = .cantOpen)) := by
  have hfail : env.osOpen w.trace s.device < 0 →
      Session.open env (s, w)
        = (.thrown .cantOpen,
            ({ s with i2c := env.osOpen w.trace s.device }, w.log (.osOpen s.device))) := by
    intro hf
    unfold Session.open
    simp only
    rw [if_pos hf]
  have hbind : ¬ env.osOpen w.trace s.device < 0 →
      env.ioctlSlave (.osOpen s.device :: w.trace) (env.osOpen w.trace s.device) a < 0 →
      Session.open env (s, w)
        = (.thrown .setAddress,
            ({ s with i2c := env.osOpen w.trace s.device },
              (w.log (.osOpen s.device)).log
                (.ioctlSlave (env.osOpen w.trace s.device) a))) := by
    intro hf hb
    unfold Session.open
    simp only
    rw [if_neg hf]
    simp only [ha]
    exact if_pos hb
  have hok : ¬ env.osOpen w.trace s.device < 0 →
      ¬ env.ioctlSlave (.osOpen s.device :: w.trace) (env.osOpen w.trace s.device) a < 0 →
      (Session.open env (s, w)).1 = .ok () := by
    intro hf hb
    unfold Session.open
    simp only
    rw [if_neg hf]
    simp only [ha]
    exact congrArg Prod.fst (if_neg hb)
  refine ⟨?_, ?_, ?_⟩
  · intro hf
    rw [hfail hf]
    refine ⟨rfl, ?_, rfl⟩
    simp only [opened, CLOSE, decide_eq_false_iff_not]
    omega
  · intro hf hb
    rw [hbind hf hb]
    refine ⟨rfl, rfl, ?_⟩
    simp only [opened, CLOSE, decide_eq_true_eq]
    omega
  · intro e he
    by_cases hf : env.osOpen w.trace s.device < 0
    · rw [hfail hf] at he ⊢
      simp only [Outcome.thrown.injEq] at he
      subst he
      simp only [opened, CLOSE, decide_eq_false_iff_not, iff_true]
      omega
    · by_cases hb : env.ioctlSlave (.osOpen s.device :: w.trace)
          (env.osOpen w.trace s.device) a < 0
      · rw [hbind hf hb] at he ⊢
        simp only [Outcome.thrown.injEq] at he
        subst he
        simp only [opened, CLOSE, decide_eq_false_iff_not]
        constructor
        · intro h
          omega
        · intro h
          exact absurd h (by decide)
      · rw [hok hf hb] at he
        exact absurd he (by simp)

/-- Witness of C20 (amended): a device on which `::open` fails and one on which the
bind fails. -/
theorem open_failure_handle_witness :
    ((Session.open Env.stubOpenFails (closedSession, ⟨[]⟩)).1 = .thrown .cantOpen ∧
      opened (Session.open Env.stubOpenFails (closedSession, ⟨[]⟩)).2.1 = false ∧
      (Session.open Env.stubOpenFails (closedSession, ⟨[]⟩)).2.2
        = (⟨[]⟩ : World).log (.osOpen closedSession.device)) ∧
    ((Session.open Env.stubBindFails (closedSession, ⟨[]⟩)).1 = .thrown .setAddress ∧
      (Session.open Env.stubBindFails (closedSession, ⟨[]⟩)).2.1.i2c
        = Env.stubBindFails.osOpen [] closedSession.device ∧
      opened (Session.open Env.stubBindFails (closedSession, ⟨[]⟩)).2.1 = true) :=
  ⟨(open_failure_handle Env.stubOpenFails closedSession ⟨[]⟩ 0x77 rfl).1 (by decide),
    (open_failure_handle Env.stubBindFails closedSession ⟨[]⟩ 0x77 rfl).2.1 (by decide)
      (by decide)⟩

/-! ### A complete run of `calibration` -/

theorem bind_modifyCalibration {β : Type} (g : Calibration → Calibration)
    (f : Unit → Prog (Session × World) β) (s : Session) (w : World) :
    (modifyCalibration g >>= f) (s, w) = f () ({ s with calibration := g s.calibration }, w) :=
  rfl

theorem bind_onWorld_read {β : Type} (env : Env) (regs : Nat → Nat) (fd : Int)
    (hr : env.HoldsRegisters fd regs) (hb : ∀ r, regs r < 256) (r : Nat)
    (f : Nat → Prog (Session × World) β) (s : Session) (w : World) (hfd : s.i2c = fd) :
    (Prog.onWorld (fun s => readByteData env s r) >>= f) (s, w)
      = f (regs r) (s, ⟨.smbusReadByte fd r :: w.trace⟩) := by
  subst hfd
  exact Prog.bind_ok _ _ _ _ _
    (by rw [onWorld_apply, readByteData_of_holds env s regs hr hb]; rfl)

theorem softReset_idle (env : Env) (s : Session) (w : World) (regs : Nat → Nat)
    (hw : env.WritesSucceed s.i2c) (hr : env.HoldsRegisters s.i2c regs)
    (hidle : regs STATUS = 0) :
    softReset env s w
      = (.ok (), ⟨.smbusReadByte s.i2c STATUS
          :: .smbusWriteByte s.i2c SOFT_RESET_REG SOFT_RESET_COMMAND :: w.trace⟩) := by
  rw [softReset_of_write env s w (hw _ _ _)]
  exact softResetLoop_idle_step env s 999 _ ⟨regs STATUS, hr _ _, by rw [hidle]; rfl⟩

theorem bind_onWorld_softReset {β : Type} (env : Env) (regs : Nat → Nat) (fd : Int)
    (hw : env.WritesSucceed fd) (hr : env.HoldsRegisters fd regs) (hidle : regs STATUS = 0)
    (f : Unit → Prog (Session × World) β) (s : Session) (w : World) (hfd : s.i2c = fd) :
    (Prog.onWorld (fun s => softReset env s) >>= f) (s, w)
      = f () (s, ⟨.smbusReadByte fd STATUS
          :: .smbusWriteByte fd SOFT_RESET_REG SOFT_RESET_COMMAND :: w.trace⟩) := by
  subst hfd
  exact Prog.bind_ok _ _ _ _ _
    (by rw [onWorld_apply, softReset_idle env s w regs hw hr hidle])

theorem bind_onWorld_block {β : Type} (env : Env) (fd : Int) (b : Nat → Nat)
    (hblk : env.BlockReturns fd TEMP_PRESS_CALIB_DATA_ADDR TEMP_PRESS_CALIB_DATA_LEN
      TEMP_PRESS_CALIB_DATA_LEN b)
    (f : Nat × List Nat → Prog (Session × World) β) (s : Session) (w : World)
    (hfd : s.i2c = fd) :
    (Prog.onWorld (fun s => readBlockData env s TEMP_PRESS_CALIB_DATA_ADDR
        (List.replicate TEMP_PRESS_CALIB_DATA_LEN 0) TEMP_PRESS_CALIB_DATA_LEN) >>= f) (s, w)
      = f (24, (List.range 24).map (fun i => toUInt8 (b i)))
          (s, ⟨.smbusReadBlock fd TEMP_PRESS_CALIB_DATA_ADDR TEMP_PRESS_CALIB_DATA_LEN
            :: w.trace⟩) := by
  subst hfd
  have hread : readBlockData env s TEMP_PRESS_CALIB_DATA_ADDR
      (List.replicate TEMP_PRESS_CALIB_DATA_LEN 0) TEMP_PRESS_CALIB_DATA_LEN w
      = (.ok (24, (List.range 24).map (fun i => toUInt8 (b i))),
          w.log (.smbusReadBlock s.i2c TEMP_PRESS_CALIB_DATA_ADDR
            TEMP_PRESS_CALIB_DATA_LEN)) := by
    have h24 : toUInt8 TEMP_PRESS_CALIB_DATA_LEN = TEMP_PRESS_CALIB_DATA_LEN := rfl
    have hdrop : (List.replicate TEMP_PRESS_CALIB_DATA_LEN 0).drop TEMP_PRESS_CALIB_DATA_LEN
        = ([] : List Nat) := rfl
    unfold readBlockData
    rw [h24, hblk w.trace]
    simp only [h24, hdrop, List.append_nil, Nat.lt_irrefl, if_false]
    rfl
  exact Prog.bind_ok _ _ _ _ _ (by rw [onWorld_apply, hread]; rfl)

theorem bind_onWorld_time {β : Type} (env : Env) (f : Int → Prog (Session × World) β)
    (s : Session) (w : World) :
    (Prog.onWorld (fun _ => fun w => ((Outcome.ok (env.time w.trace) : Outcome Int),
        w.log .time)) >>= f) (s, w)
      = f (env.time w.trace) (s, ⟨.time :: w.trace⟩) := rfl

theorem calibration_ok (env : Env) (s : Session) (w : World) (regs b : Nat → Nat)
    (hw : env.WritesSucceed s.i2c) (hr : env.HoldsRegisters s.i2c regs)
    (hb : ∀ r, regs r < 256) (hidle : regs STATUS = 0)
    (hblk : env.BlockReturns s.i2c TEMP_PRESS_CALIB_DATA_ADDR TEMP_PRESS_CALIB_DATA_LEN
      TEMP_PRESS_CALIB_DATA_LEN b) :
    calibration env (s, w)
      = (.ok (),
          ({ s with calibration :=
              { decodeBlock ((List.range 24).map (fun i => toUInt8 (b i))) s.calibration with
                H1 := (regs HUM_CALIB_H1 : Nat)
                H2 := toInt16 (word16 (regs HUM_CALIB_H2_MSB) (regs HUM_CALIB_H2_LSB) : Nat)
                H3 := (regs HUM_CALIB_H3 : Nat)
                H4 := decodeH4 (regs HUM_CALIB_H4_MSB) (regs HUM_CALIB_H4_LSB)
                H5 := decodeH5 (regs HUM_CALIB_H5_MSB) (regs HUM_CALIB_H5_LSB)
                H6 := toInt8 (regs HUM_CALIB_H6 : Nat)
                updateTime := env.time (calibrationReads s.i2c w.trace) } },
           ⟨.time :: calibrationReads s.i2c w.trace⟩)) := by
  unfold calibration
  simp only [bind_onWorld_softReset env regs s.i2c hw hr hidle,
    bind_onWorld_block env s.i2c b hblk, bind_modifyCalibration,
    bind_onWorld_read env regs s.i2c hr hb, bind_onWorld_time]
  rfl

/-! ### Decoding of the byte-aligned coefficients -/

theorem decodeU16_eq (hi lo : Nat) (hhi : hi < 256) (hlo : lo < 256) :
    ((toUInt16 (word16 (toUInt8 hi) (toUInt8 lo)) : Nat) : Int) = ((lo + 256 * hi : Nat) : Int) := by
  have h1 : toUInt8 hi = hi := Nat.mod_eq_of_lt hhi
  have h2 : toUInt8 lo = lo := Nat.mod_eq_of_lt hlo
  rw [h1, h2, word16_eq _ _ hlo]
  unfold toUInt16
  congr 1
  omega

theorem decodeS16_eq (hi lo : Nat) (hhi : hi < 256) (hlo : lo < 256) :
    toInt16 ((word16 hi lo : Nat) : Int) = signed16 (lo + 256 * hi) := by
  rw [word16_eq _ _ hlo]
  unfold toInt16 signed16
  split_ifs <;> omega

theorem decodeS16_eq_byte (hi lo : Nat) (hhi : hi < 256) (hlo : lo < 256) :
    toInt16 ((word16 (toUInt8 hi) (toUInt8 lo) : Nat) : Int) = signed16 (lo + 256 * hi) := by
  have h1 : toUInt8 hi = hi := Nat.mod_eq_of_lt hhi
  have h2 : toUInt8 lo = lo := Nat.mod_eq_of_lt hlo
  rw [h1, h2]
  exact decodeS16_eq hi lo hhi hlo

theorem decodeS8_eq (v : Nat) (hv : v < 256) : toInt8 (v : Int) = signed8 v := by
  unfold toInt8 signed8
  split_ifs <;> omega

/-- C14.  When `calibration` completes on a device that returns the 24 bytes `b` in
full from register 0x88, the twelve 16-bit coefficients are `b[2k] + 256 * b[2k+1]`,
unsigned for T1 and P1 and two's-complement signed for the others; H1 and H3 are the
bytes at 0xA1 and 0xE3, H2 is the signed value of `reg(0xE1) + 256 * reg(0xE2)` and
H6 the signed value of the byte at 0xE7.  Little-endian encoding followed by this
decoding returns the coefficient. -/
theorem calibration_decodes_little_endian (env : Env) (s : Session) (w : World)
    (regs b : Nat → Nat)
    (hw : env.WritesSucceed s.i2c) (hr : env.HoldsRegisters s.i2c regs)
    (hb : ∀ r, regs r < 256) (hidle : regs STATUS = 0)
    (hblk : env.BlockReturns s.i2c TEMP_PRESS_CALIB_DATA_ADDR TEMP_PRESS_CALIB_DATA_LEN
      TEMP_PRESS_CALIB_DATA_LEN b)
    (hbb : ∀ i, b i < 256) :
    (calibration env (s, w)).1 = .ok () ∧
    ((calibrated env s w).T1 = ((b 0 + 256 * b 1 : Nat) : Int) ∧
      (calibrated env s w).T2 = signed16 (b 2 + 256 * b 3) ∧
      (calibrated env s w).T3 = signed16 (b 4 + 256 * b 5) ∧
      (calibrated env s w).P1 = ((b 6 + 256 * b 7 : Nat) : Int) ∧
      (calibrated env s w).P2 = signed16 (b 8 + 256 * b 9) ∧
      (calibrated env s w).P3 = signed16 (b 10 + 256 * b 11) ∧
      (calibrated env s w).P4 = signed16 (b 12 + 256 * b 13) ∧
      (calibrated env s w).P5 = signed16 (b 14 + 256 * b 15) ∧
      (calibrated env s w).P6 = signed16 (b 16 + 256 * b 17) ∧
      (calibrated env s w).P7 = signed16 (b 18 + 256 * b 19) ∧
      (calibrated env s w).P8 = signed16 (b 20 + 256 * b 21) ∧
      (calibrated env s w).P9 = signed16 (b 22 + 256 * b 23)) ∧
    ((calibrated env s w).H1 = (regs 0xA1 : Nat) ∧
      (calibrated env s w).H2 = signed16 (regs 0xE1 + 256 * regs 0xE2) ∧
      (calibrated env s w).H3 = (regs 0xE3 : Nat) ∧
      (calibrated env s w).H6 = signed8 (regs 0xE7)) ∧
    ((∀ v : Int, 0 ≤ v → v ≤ 65535 →
        (((encodeLE16 v).1 + 256 * (encodeLE16 v).2 : Nat) : Int) = v) ∧
      (∀ v : Int, -32768 ≤ v → v ≤ 32767 →
        signed16 ((encodeLE16 v).1 + 256 * (encodeLE16 v).2) = v) ∧
      (∀ v : Int, 0 ≤ v → v ≤ 255 → ((encode8 v : Nat) : Int) = v) ∧
      (∀ v : Int, -128 ≤ v → v ≤ 127 → signed8 (encode8 v) = v)) := by
  have hc := calibration_ok env s w regs b hw hr hb hidle hblk
  refine ⟨by rw [hc], ⟨?_, ?_, ?_, ?_, ?_, ?_, ?_, ?_, ?_, ?_, ?_, ?_⟩, ⟨?_, ?_, ?_, ?_⟩,
    ⟨?_, ?_, ?_, ?_⟩⟩
  · unfold calibrated; rw [hc]; exact decodeU16_eq _ _ (hbb _) (hbb _)
  · unfold calibrated; rw [hc]; exact decodeS16_eq_byte _ _ (hbb _) (hbb _)
  · unfold calibrated; rw [hc]; exact decodeS16_eq_byte _ _ (hbb _) (hbb _)
  · unfold calibrated; rw [hc]; exact decodeU16_eq _ _ (hbb _) (hbb _)
  · unfold calibrated; rw [hc]; exact decodeS16_eq_byte _ _ (hbb _) (hbb _)
  · unfold calibrated; rw [hc]; exact decodeS16_eq_byte _ _ (hbb _) (hbb _)
  · unfold calibrated; rw [hc]; exact decodeS16_eq_byte _ _ (hbb _) (hbb _)
  · unfold calibrated; rw [hc]; exact decodeS16_eq_byte _ _ (hbb _) (hbb _)
  · unfold calibrated; rw [hc]; exact decodeS16_eq_byte _ _ (hbb _) (hbb _)
  · unfold calibrated; rw [hc]; exact decodeS16_eq_byte _ _ (hbb _) (hbb _)
  · unfold calibrated; rw [hc]; exact decodeS16_eq_byte _ _ (hbb _) (hbb _)
  · unfold calibrated; rw [hc]; exact decodeS16_eq_byte _ _ (hbb _) (hbb _)
  · unfold calibrated; rw [hc]; rfl
  · unfold calibrated; rw [hc]; exact decodeS16_eq _ _ (hb _) (hb _)
  · unfold calibrated; rw [hc]; rfl
  · unfold calibrated; rw [hc]; exact decodeS8_eq _ (hb _)
  · intro v h0 h1
    unfold encodeLE16
    simp only
    omega
  · intro v h0 h1
    unfold encodeLE16 signed16
    simp only
    split_ifs <;> omega
  · intro v h0 h1
    unfold encode8
    omega
  · intro v h0 h1
    unfold encode8 signed8
    split_ifs <;> omega

theorem stubCalibration_holds (fd : Int) :
    Env.stubCalibration.HoldsRegisters fd humidityCoefficientRegisters := fun _ _ => rfl

theorem humidityCoefficientRegisters_lt (r : Nat) : humidityCoefficientRegisters r < 256 := by
  unfold humidityCoefficientRegisters
  split_ifs <;> decide

/-- Witness of C14: the stub device whose block is `1, 2, ..., 24`. -/
theorem calibration_decodes_little_endian_witness :
    (calibration Env.stubCalibration (closedSession, ⟨[]⟩)).1 = .ok () ∧
    (calibrated Env.stubCalibration closedSession ⟨[]⟩).T1 = ((1 + 256 * 2 : Nat) : Int) ∧
    (calibrated Env.stubCalibration closedSession ⟨[]⟩).T2 = signed16 (3 + 256 * 4) ∧
    (calibrated Env.stubCalibration closedSession ⟨[]⟩).H2 = -2 ∧
    (calibrated Env.stubCalibration closedSession ⟨[]⟩).H6 = -3 :=
  have h := calibration_decodes_little_endian Env.stubCalibration closedSession ⟨[]⟩
    humidityCoefficientRegisters (fun i => (i + 1) % 256) (fun _ _ _ => rfl)
    (stubCalibration_holds _) humidityCoefficientRegisters_lt rfl (fun _ => rfl)
    (fun i => Nat.mod_lt _ (by decide))
  ⟨h.1, h.2.1.1, h.2.1.2.1, h.2.2.1.2.1.trans (by decide), h.2.2.1.2.2.2.trans (by decide)⟩

/-! ### The calibration timestamp -/

theorem readByteData_of_answer (env : Env) (s : Session) (r v : Nat) (w : World)
    (h : env.readByte w.trace s.i2c r = some v) (hv : v < 256) :
    readByteData env s r w = (.ok v, ⟨.smbusReadByte s.i2c r :: w.trace⟩) := by
  unfold readByteData
  rw [h]
  simp only [toUInt8, Nat.mod_eq_of_lt hv]
  rfl

theorem getRawTemperature_of_answers (env : Env) (s : Session) (t : List Event)
    (tm tl tx : Nat)
    (h : env.AnswersFrom s.i2c t [(TEMP_MSB, tm), (TEMP_LSB, tl), (TEMP_XLSB, tx)]) :
    getRawTemperature env s ⟨t⟩ =
      (if tm = 0x80 ∧ tl = 0x00 ∧ tx = 0x00 then .thrown .readTemperature
        else .ok (raw20 tm tl tx),
        ⟨.smbusReadByte s.i2c TEMP_XLSB :: .smbusReadByte s.i2c TEMP_LSB
          :: .smbusReadByte s.i2c TEMP_MSB :: t⟩) := by
  obtain ⟨h1, hb1, h2, hb2, h3, hb3, _⟩ := h
  unfold getRawTemperature
  rw [Prog.bind_ok _ _ _ _ _ (readByteData_of_answer env s _ _ ⟨t⟩ h1 hb1),
    Prog.bind_ok _ _ _ _ _ (readByteData_of_answer env s _ _ ⟨_⟩ h2 hb2),
    Prog.bind_ok _ _ _ _ _ (readByteData_of_answer env s _ _ ⟨_⟩ h3 hb3)]
  split_ifs <;> rfl

theorem getFineTemperature_of_answers (env : Env) (s : Session) (t : List Event)
    (tm tl tx : Nat)
    (h : env.AnswersFrom s.i2c t [(TEMP_MSB, tm), (TEMP_LSB, tl), (TEMP_XLSB, tx)]) :
    getFineTemperature env s ⟨t⟩ =
      (if tm = 0x80 ∧ tl = 0x00 ∧ tx = 0x00 then .thrown .readTemperature
        else .ok (calcTemperature s.calibration (raw20 tm tl tx)),
        ⟨.smbusReadByte s.i2c TEMP_XLSB :: .smbusReadByte s.i2c TEMP_LSB
          :: .smbusReadByte s.i2c TEMP_MSB :: t⟩) := by
  have hraw := getRawTemperature_of_answers env s t tm tl tx h
  unfold getFineTemperature
  split_ifs with hs
  · rw [if_pos hs] at hraw
    rw [Prog.bind_thrown _ _ _ _ _ hraw]
  · rw [if_neg hs] at hraw
    rw [Prog.bind_ok _ _ _ _ _ hraw]
    rfl

theorem readRawHumidity_of_answers (env : Env) (s : Session) (t : List Event) (hm hl : Nat)
    (h1 : env.readByte t s.i2c HUM_MSB = some hm) (hb1 : hm < 256)
    (h2 : env.readByte (.smbusReadByte s.i2c HUM_MSB :: t) s.i2c HUM_LSB = some hl)
    (hb2 : hl < 256) :
    readRawHumidity env s ⟨t⟩ =
      (if hm = 0x80 ∧ hl = 0x00 then .thrown .readHumidity else .ok (raw16 hm hl),
        ⟨.smbusReadByte s.i2c HUM_LSB :: .smbusReadByte s.i2c HUM_MSB :: t⟩) := by
  unfold readRawHumidity
  rw [Prog.bind_ok _ _ _ _ _ (readByteData_of_answer env s _ _ ⟨t⟩ h1 hb1),
    Prog.bind_ok _ _ _ _ _ (readByteData_of_answer env s _ _ ⟨_⟩ h2 hb2)]
  split_ifs <;> rfl

theorem getRawPressure_of_answers (env : Env) (s : Session) (t : List Event)
    (pm pl px : Nat)
    (h1 : env.readByte t s.i2c PRESS_MSB = some pm) (hb1 : pm < 256)
    (h2 : env.readByte (.smbusReadByte s.i2c PRESS_MSB :: t) s.i2c PRESS_LSB = some pl)
    (hb2 : pl < 256)
    (h3 : env.readByte (.smbusReadByte s.i2c PRESS_LSB :: .smbusReadByte s.i2c PRESS_MSB :: t)
      s.i2c PRESS_XLSB = some px) (hb3 : px < 256) :
    getRawPressure env s ⟨t⟩ =
      (if pm = 0x80 ∧ pl = 0x00 ∧ px = 0x00 then .thrown .readPressure
        else .ok (raw20 pm pl px),
        ⟨.smbusReadByte s.i2c PRESS_XLSB :: .smbusReadByte s.i2c PRESS_LSB
          :: .smbusReadByte s.i2c PRESS_MSB :: t⟩) := by
  unfold getRawPressure
  rw [Prog.bind_ok _ _ _ _ _ (readByteData_of_answer env s _ _ ⟨t⟩ h1 hb1),
    Prog.bind_ok _ _ _ _ _ (readByteData_of_answer env s _ _ ⟨_⟩ h2 hb2),
    Prog.bind_ok _ _ _ _ _ (readByteData_of_answer env s _ _ ⟨_⟩ h3 hb3)]
  split_ifs <;> rfl

/-- C17 (counterexample).  On a device whose raw humidity and raw pressure registers
hold the power-on-reset sentinel, `getHumidity` reads 0xFD and 0xFE and
`getQfePressure` reads 0xF7, 0xF8 and 0xF9, and both throw without reading the
temperature registers. -/
theorem sentinel_call_skips_temperature :
    getHumidity (Env.stub sentinelRegisters) datasheetSession ⟨[]⟩
      = (.thrown .readHumidity, ⟨[.smbusReadByte 3 0xFE, .smbusReadByte 3 0xFD]⟩) ∧
    getQfePressure (Env.stub sentinelRegisters) datasheetSession ⟨[]⟩
      = (.thrown .readPressure,
          ⟨[.smbusReadByte 3 0xF9, .smbusReadByte 3 0xF8, .smbusReadByte 3 0xF7]⟩) := by
  refine ⟨by decide, by decide⟩

/-- C17 (amended).  A call of `getHumidity` reads 0xFD and 0xFE and, unless these two
bytes are the sentinel, then 0xFA, 0xFB, 0xFC; a call of `getQfePressure` reads 0xF7,
0xF8, 0xF9 and, unless these three bytes are the sentinel, then 0xFA, 0xFB, 0xFC.
The value returned is computed from the bytes answered during the call and the stored
calibration alone, and the functions depend on the session only through its
descriptor and calibration (they return no new session). -/
theorem measurement_samples_temperature (env : Env) (s : Session) (t : List Event)
    (hm hl tm tl tx pm pl px um ul ux : Nat)
    (hH : env.AnswersFrom s.i2c t
      [(HUM_MSB, hm), (HUM_LSB, hl), (TEMP_MSB, tm), (TEMP_LSB, tl), (TEMP_XLSB, tx)])
    (hP : env.AnswersFrom s.i2c t
      [(PRESS_MSB, pm), (PRESS_LSB, pl), (PRESS_XLSB, px),
        (TEMP_MSB, um), (TEMP_LSB, ul), (TEMP_XLSB, ux)]) :
    (getHumidity env s ⟨t⟩ =
      if hm = 0x80 ∧ hl = 0x00 then
        (.thrown .readHumidity,
          ⟨.smbusReadByte s.i2c HUM_LSB :: .smbusReadByte s.i2c HUM_MSB :: t⟩)
      else
        (if tm = 0x80 ∧ tl = 0x00 ∧ tx = 0x00 then .thrown .readTemperature
          else .ok (calcHumidityFrom s.calibration
            (calcTemperature s.calibration (raw20 tm tl tx)) (raw16 hm hl)),
          ⟨.smbusReadByte s.i2c TEMP_XLSB :: .smbusReadByte s.i2c TEMP_LSB
            :: .smbusReadByte s.i2c TEMP_MSB
            :: .smbusReadByte s.i2c HUM_LSB :: .smbusReadByte s.i2c HUM_MSB :: t⟩)) ∧
    (getQfePressure env s ⟨t⟩ =
      if pm = 0x80 ∧ pl = 0x00 ∧ px = 0x00 then
        (.thrown .readPressure,
          ⟨.smbusReadByte s.i2c PRESS_XLSB :: .smbusReadByte s.i2c PRESS_LSB
            :: .smbusReadByte s.i2c PRESS_MSB :: t⟩)
      else
        (if um = 0x80 ∧ ul = 0x00 ∧ ux = 0x00 then .thrown .readTemperature
          else calcPressureFrom s.calibration
            (calcTemperature s.calibration (raw20 um ul ux)) (raw20 pm pl px),
          ⟨.smbusReadByte s.i2c TEMP_XLSB :: .smbusReadByte s.i2c TEMP_LSB
            :: .smbusReadByte s.i2c TEMP_MSB
            :: .smbusReadByte s.i2c PRESS_XLSB :: .smbusReadByte s.i2c PRESS_LSB
            :: .smbusReadByte s.i2c PRESS_MSB :: t⟩)) ∧
    (∀ s2 : Session, s2.i2c = s.i2c → s2.calibration = s.calibration →
      getHumidity env s2 = getHumidity env s ∧
      getQfePressure env s2 = getQfePressure env s) := by
  refine ⟨?_, ?_, ?_⟩
  · obtain ⟨h1, hb1, h2, hb2, hT⟩ := hH
    have hfine := getFineTemperature_of_answers env s _ tm tl tx hT
    have hraw := readRawHumidity_of_answers env s t hm hl h1 hb1 h2 hb2
    unfold getHumidity
    split_ifs with hs ht
    · rw [if_pos hs] at hraw
      rw [Prog.bind_thrown _ _ _ _ _ hraw]
    · rw [if_neg hs] at hraw
      rw [if_pos ht] at hfine
      rw [Prog.bind_ok _ _ _ _ _ hraw]
      unfold calcHumidity
      rw [Prog.bind_thrown _ _ _ _ _ hfine]
    · rw [if_neg hs] at hraw
      rw [if_neg ht] at hfine
      rw [Prog.bind_ok _ _ _ _ _ hraw]
      unfold calcHumidity
      rw [Prog.bind_ok _ _ _ _ _ hfine]
      rfl
  · obtain ⟨h1, hb1, h2, hb2, h3, hb3, hT⟩ := hP
    have hfine := getFineTemperature_of_answers env s _ um ul ux hT
    have hraw := getRawPressure_of_answers env s t pm pl px h1 hb1 h2 hb2 h3 hb3
    unfold getQfePressure
    split_ifs with hs ht
    · rw [if_pos hs] at hraw
      rw [Prog.bind_thrown _ _ _ _ _ hraw]
    · rw [if_neg hs] at hraw
      rw [if_pos ht] at hfine
      rw [Prog.bind_ok _ _ _ _ _ hraw]
      unfold calcPressure
      rw [Prog.bind_thrown _ _ _ _ _ hfine]
    · rw [if_neg hs] at hraw
      rw [if_neg ht] at hfine
      rw [Prog.bind_ok _ _ _ _ _ hraw]
      unfold calcPressure
      rw [Prog.bind_ok _ _ _ _ _ hfine]
  · intro s2 hi hc
    obtain ⟨d2, a2, i2, c2, k2⟩ := s2
    obtain ⟨d, a, i, c, k⟩ := s
    simp only at hi hc
    subst hi
    subst hc
    exact ⟨rfl, rfl⟩

theorem stub_answersFrom (regs : Nat → Nat) (hb : ∀ r, regs r < 256) (fd : Int) :
    ∀ (l : List Nat) (t : List Event),
      (Env.stub regs).AnswersFrom fd t (l.map (fun r => (r, regs r))) := by
  intro l
  induction l with
  | nil => exact fun _ => trivial
  | cons r rs ih => exact fun t => ⟨rfl, hb r, ih _⟩

/-- Witness of C17 (amended): the datasheet registers read through the stub device. -/
theorem measurement_samples_temperature_witness :
    getHumidity (Env.stub datasheetRegisters) datasheetSession ⟨[]⟩
      = (.ok (calcHumidityFrom datasheetSession.calibration
            (calcTemperature datasheetSession.calibration (raw20 0x7E 0xED 0x00))
            (raw16 0x4E 0x20)),
          ⟨[.smbusReadByte 3 0xFC, .smbusReadByte 3 0xFB, .smbusReadByte 3 0xFA,
            .smbusReadByte 3 0xFE, .smbusReadByte 3 0xFD]⟩) :=
  (measurement_samples_temperature (Env.stub datasheetRegisters) datasheetSession []
    0x4E 0x20 0x7E 0xED 0x00 0x65 0x5A 0xC0 0x7E 0xED 0x00
    (stub_answersFrom datasheetRegisters datasheetRegisters_lt 3 [0xFD, 0xFE, 0xFA, 0xFB, 0xFC] [])
    (stub_answersFrom datasheetRegisters datasheetRegisters_lt 3
      [0xF7, 0xF8, 0xF9, 0xFA, 0xFB, 0xFC] [])).1

/-! ### Ranges -/

theorem toInt32_range (z : Int) : -2147483648 ≤ toInt32 z ∧ toInt32 z ≤ 2147483647 := by
  unfold toInt32
  omega

theorem toInt32_of_range (z : Int) (h : InInt32 z) : toInt32 z = z := by
  unfold InInt32 at h
  unfold toInt32
  omega

/-- C18 (counterexample).  Raw humidity 40000 at the datasheet fine temperature 128422
with the coefficients of `humidityCalibration`, all within their declared widths:
`calcHumidity` returns 113628, more than 102400.  No operation overflows and the first
factor is positive on this input. -/
theorem calcHumidity_exceeds_100_percent :
    calcTemperature datasheetCalibration 519888 = 128422 ∧
    calcHumidityFrom humidityCalibration 128422 40000 = 113628 ∧
    (getHumidity (Env.stub humidRegisters) datasheetSession ⟨[]⟩).1 = .ok 113628 ∧
    ¬ (calcHumidityFrom humidityCalibration 128422 40000 ≤ 102400) := by
  refine ⟨by decide, by decide, by decide, by decide⟩

/-- C18 (amended).  The function `calcHumidity` has no clamp: for every raw value, fine
temperature and calibration its result is the unsigned conversion of a signed 32-bit
value shifted right by 12, hence either below `2^19` or at least `2^32 - 2^19`. -/
theorem calcHumidity_range (c : Calibration) (fine raw : Int) :
    (0 ≤ calcHumidityFrom c fine raw ∧ calcHumidityFrom c fine raw < 524288) ∨
    (4294443008 ≤ calcHumidityFrom c fine raw ∧ calcHumidityFrom c fine raw < 4294967296) := by
  unfold calcHumidityFrom
  simp only
  generalize toInt32 (umul32 _ _) = x
  generalize shr32 (mul32 (shr32 (mul32 (shr32 x 15) (shr32 x 15)) 7) c.H1) 4 = y
  have h := toInt32_range (x - y)
  rw [shr32_eq_div]
  unfold sub32 toUInt32
  norm_num
  omega

/-- C19 (counterexample).  With raw = 1048575, T1 = 0, T2 = 32767, T3 = 0, all within
the stated ranges, the product `((raw >> 3) - (T1 << 1)) * T2` is 4294803457, above
`2^31 - 1`, and so is the square `((raw >> 4) - T1)^2`; the 32-bit result -80 differs
from the value 2097072 of the formula over unbounded integers. -/
theorem calcTemperature_product_overflows :
    extremeCalibration.InRange ∧
    ((1048575 : Int) / 8 - extremeCalibration.T1 * 2) * extremeCalibration.T2 = 4294803457 ∧
    ¬ InInt32 (((1048575 : Int) / 8 - extremeCalibration.T1 * 2) * extremeCalibration.T2) ∧
    ¬ InInt32 (((1048575 : Int) / 16 - extremeCalibration.T1)
      * ((1048575 : Int) / 16 - extremeCalibration.T1)) ∧
    calcTemperature extremeCalibration 1048575 = -80 ∧
    calcTemperatureExact extremeCalibration 1048575 = 2097072 ∧
    calcTemperature extremeCalibration 1048575
      ≠ calcTemperatureExact extremeCalibration 1048575 := by
  refine ⟨by unfold Calibration.InRange extremeCalibration; decide, by decide, ?_, ?_,
    by decide, by decide, by decide⟩
  · unfold InInt32; decide
  · unfold InInt32; decide

/-- When the three products of `calcTemperature` are representable in 32 bits, no
operation wraps. -/
theorem calcTemperature_eq_exact (c : Calibration) (raw : Int)
    (hraw : 0 ≤ raw ∧ raw < 1048576) (hT1 : 0 ≤ c.T1 ∧ c.T1 ≤ 65535)
    (hp1 : InInt32 ((raw / 8 - c.T1 * 2) * c.T2))
    (hp2 : InInt32 ((raw / 16 - c.T1) * (raw / 16 - c.T1)))
    (hp3 : InInt32 ((raw / 16 - c.T1) * (raw / 16 - c.T1) / 4096 * c.T3)) :
    calcTemperature c raw = calcTemperatureExact c raw := by
  have e1 : toInt32 (c.T1 * 2) = c.T1 * 2 :=
    toInt32_of_range _ (by unfold InInt32; omega)
  have e2 : toInt32 (raw / 8 - c.T1 * 2) = raw / 8 - c.T1 * 2 :=
    toInt32_of_range _ (by unfold InInt32; omega)
  have e3 : toInt32 (raw / 16 - c.T1) = raw / 16 - c.T1 :=
    toInt32_of_range _ (by unfold InInt32; omega)
  have e4 := toInt32_of_range _ hp1
  have e5 := toInt32_of_range _ hp2
  have e6 := toInt32_of_range _ hp3
  unfold calcTemperature calcTemperatureExact
  simp only [shr32_eq_div, sub32, shl32, mul32, add32]
  norm_num
  rw [e1, e2, e3, e4, e5, e6]
  apply toInt32_of_range
  unfold InInt32 at *
  omega

/-- With the datasheet coefficients no product of `calcTemperature` leaves the 32-bit
range, whatever the raw value in `[0, 2^20)`: the result is the exact one. -/
theorem calcTemperature_datasheet_exact (raw : Int) (hraw : 0 ≤ raw ∧ raw < 1048576) :
    calcTemperature datasheetCalibration raw = calcTemperatureExact datasheetCalibration raw := by
  have hsq1 : 0 ≤ (raw / 16 - 27504) * (raw / 16 - 27504) := mul_self_nonneg _
  have hsq2 : (raw / 16 - 27504) * (raw / 16 - 27504) ≤ 38031 * 38031 := by
    have hd1 : -27504 ≤ raw / 16 - 27504 := by omega
    have hd2 : raw / 16 - 27504 ≤ 38031 := by omega
    nlinarith
  apply calcTemperature_eq_exact datasheetCalibration raw hraw (by decide)
  · show InInt32 ((raw / 8 - 27504 * 2) * 26435)
    unfold InInt32
    omega
  · show InInt32 ((raw / 16 - 27504) * (raw / 16 - 27504))
    unfold InInt32
    omega
  · show InInt32 ((raw / 16 - 27504) * (raw / 16 - 27504) / 4096 * (-1000))
    unfold InInt32
    omega

/-- C19 (amended).  For every raw in `[0, 2^20)` and T1 in `[0, 65535]`, when the three
products of `calcTemperature` (the difference times T2, the square, and the shifted
square times T3) lie in `[-2^31, 2^31 - 1]`, no operation wraps and the 32-bit result
equals the formula over unbounded integers; with the datasheet coefficients this is
so for every raw in `[0, 2^20)`. -/
theorem calcTemperature_exact_of_products (c : Calibration) (raw : Int)
    (hraw : 0 ≤ raw ∧ raw < 1048576) (hT1 : 0 ≤ c.T1 ∧ c.T1 ≤ 65535)
    (hp1 : InInt32 ((raw / 8 - c.T1 * 2) * c.T2))
    (hp2 : InInt32 ((raw / 16 - c.T1) * (raw / 16 - c.T1)))
    (hp3 : InInt32 ((raw / 16 - c.T1) * (raw / 16 - c.T1) / 4096 * c.T3)) :
    calcTemperature c raw = calcTemperatureExact c raw ∧
    calcTemperature datasheetCalibration raw
      = calcTemperatureExact datasheetCalibration raw :=
  ⟨calcTemperature_eq_exact c raw hraw hT1 hp1 hp2 hp3,
    calcTemperature_datasheet_exact raw hraw⟩

/-- Witness of C19 (amended): the datasheet sample. -/
theorem calcTemperature_exact_of_products_witness :
    calcTemperature datasheetCalibration 519888
      = calcTemperatureExact datasheetCalibration 519888 :=
  (calcTemperature_exact_of_products datasheetCalibration 519888 (by decide) (by decide)
    (by unfold InInt32; decide) (by unfold InInt32; decide) (by unfold InInt32; decide)).1

end BME280
